import Mathlib

set_option linter.unusedSectionVars false

/-!
Verification of the numerical event-search core of the astronomy engine
(`astronomy.c`).  The C code computes with IEEE doubles; we embed the
arithmetic in an arbitrary linear ordered field `α` (instantiated at `ℚ`
for executable witnesses and at `ℝ` when an exact square root is needed).
External collaborators (the Delta-T time-scale table, the ephemeris series,
`sqrt` from the math library) are passed as function parameters, exactly as
the design document treats them: pure scalar functions of a time value.
-/

namespace Astro

/-- Status codes from `astro_status_t` (only the members reachable from the
search core are modelled). -/
inductive astro_status where
  | success
  | searchFailure
  | noConverge
  | internalError
  | wrongMoonQuarter
  | noMoonQuarter
  | invalidParameter
  | invalidBody
  | earthNotAllowed
  | badTime
  deriving DecidableEq, Repr

/-- The `astro_time_t` structure: universal-scale and terrestrial-scale
coordinates, both in days since the J2000 epoch. -/
structure astro_time (α : Type) where
  ut : α
  tt : α
  deriving DecidableEq, Repr

/-- The `astro_func_result_t` structure: a sampled scalar value plus status. -/
structure astro_func_result (α : Type) where
  value : α
  status : astro_status
  deriving DecidableEq, Repr

/-- The `astro_search_result_t` structure. -/
structure astro_search_result (α : Type) where
  time : astro_time α
  status : astro_status
  deriving DecidableEq, Repr

section Core

variable {α : Type} [LinearOrderedField α]

/-- The constant `SECONDS_PER_DAY = 24.0 * 3600.0`. -/
def SECONDS_PER_DAY : α := 86400

/-- The constant `MEAN_SYNODIC_MONTH = 29.530588`. -/
def MEAN_SYNODIC_MONTH : α := 29530588 / 1000000

/-- The constant `KM_PER_AU = 1.4959787069098932e+8`. -/
def KM_PER_AU : α := 14959787069098932 / 100000000

/-- The function `TerrestrialTime`: `ut + DeltaT(ut + Y2000_IN_MJD)/86400.0`.
The Delta-T table lookup is the external time-scale collaborator; we pass it
as the parameter `D` (already shifted by `Y2000_IN_MJD`). -/
def TerrestrialTime (D : α → α) (ut : α) : α :=
  ut + D ut / SECONDS_PER_DAY

/-- The function `UniversalTime`: build an `astro_time_t` from a ut value. -/
def UniversalTime (D : α → α) (ut : α) : astro_time α :=
  ⟨ut, TerrestrialTime D ut⟩

/-- The function `Astronomy_AddDays`: `sum.ut = time.ut + days` and
`sum.tt = TerrestrialTime(sum.ut)`. -/
def Astronomy_AddDays (D : α → α) (t : astro_time α) (days : α) : astro_time α :=
  ⟨t.ut + days, TerrestrialTime D (t.ut + days)⟩

/-- The helper `SearchError`: an error result.  The C code stores NAN in the
time fields of an error result; NAN has no counterpart in an ordered field, so
the (never trusted) payload is modelled as 0. -/
def SearchError (s : astro_status) : astro_search_result α :=
  ⟨⟨0, 0⟩, s⟩

/-- The `CALLFUNC` macro: evaluate the continuous-function contract, yielding
either the sampled value or the propagated error status. -/
def callfunc (func : astro_time α → astro_func_result α) (t : astro_time α) :
    Except astro_status α :=
  let r := func t
  if r.status = astro_status.success then Except.ok r.value else Except.error r.status

/-- The function `QuadInterp`.  `sqrtf` is the math-library square root,
passed as an external collaborator.  Returns `some (x, t, df_dt)` on success
(the C function writes these through out-pointers and returns 1), `none` on
rejection (C return 0). -/
def QuadInterp (sqrtf : α → α) (tm dt fa fm fb : α) : Option (α × α × α) :=
  let Q := (fb + fa) / 2 - fm
  let R := (fb - fa) / 2
  let S := fm
  if Q = 0 then
    if R = 0 then
      none
    else
      let x := -S / R
      if x < -1 ∨ x > 1 then none
      else some (x, tm + x * dt, (2 * Q * x + R) / dt)
  else
    let u := R * R - 4 * Q * S
    if u ≤ 0 then
      none
    else
      let ru := sqrtf u
      let x1 := (-R + ru) / (2 * Q)
      let x2 := (-R - ru) / (2 * Q)
      if -1 ≤ x1 ∧ x1 ≤ 1 then
        if -1 ≤ x2 ∧ x2 ≤ 1 then none
        else some (x1, tm + x1 * dt, (2 * Q * x1 + R) / dt)
      else
        if -1 ≤ x2 ∧ x2 ≤ 1 then some (x2, tm + x2 * dt, (2 * Q * x2 + R) / dt)
        else none

/-- The mutable state of the `for(;;)` loop in `Astronomy_Search`:
the current bracket, the cached midpoint sample and the `calc_fmid` flag. -/
structure search_state (α : Type) where
  t1 : astro_time α
  f1 : α
  t2 : astro_time α
  f2 : α
  fmid : α
  calc_fmid : Bool
  deriving DecidableEq, Repr

/-- Outcome of one iteration of the `Astronomy_Search` loop: either a
`return` from the C function, or the state for the next iteration. -/
inductive search_step_out (α : Type) where
  | ret (r : astro_search_result α)
  | next (st : search_state α)
  deriving DecidableEq, Repr

/-- The classic-bisection fall-through at the end of the `Astronomy_Search`
loop body: replace whichever half of the bracket shows a verified sign
change with the midpoint, or fail with `SEARCH_FAILURE`. -/
def searchBisect (st : search_state α) (tmid : astro_time α) (fmid : α) :
    search_step_out α :=
  if st.f1 < 0 ∧ 0 ≤ fmid then
    search_step_out.next ⟨st.t1, st.f1, tmid, fmid, fmid, true⟩
  else if fmid < 0 ∧ 0 ≤ st.f2 then
    search_step_out.next ⟨tmid, fmid, st.t2, st.f2, fmid, true⟩
  else
    search_step_out.ret (SearchError astro_status.searchFailure)

/-- The tail of the `Astronomy_Search` loop body once the midpoint sample
`fmid` is available: quadratic refinement with its shortcut and bracket
shrinking, falling through to `searchBisect`. -/
def searchStepCont (D sqrtf : α → α) (func : astro_time α → astro_func_result α)
    (dt_days dt : α) (st : search_state α) (tmid : astro_time α) (fmid : α) :
    search_step_out α :=
  match QuadInterp sqrtf tmid.ut (st.t2.ut - tmid.ut) st.f1 fmid st.f2 with
  | none => searchBisect st tmid fmid
  | some (_, q_ut, q_df_dt) =>
    match callfunc func (UniversalTime D q_ut) with
    | Except.error s => search_step_out.ret (SearchError s)
    | Except.ok fq =>
      if q_df_dt = 0 then searchBisect st tmid fmid
      else if |fq / q_df_dt| < dt_days then
        search_step_out.ret ⟨UniversalTime D q_ut, astro_status.success⟩
      else
        if (12 / 10) * |fq / q_df_dt| < dt / 10 then
          if ((Astronomy_AddDays D (UniversalTime D q_ut) (-((12 / 10) * |fq / q_df_dt|))).ut
                - st.t1.ut) *
              ((Astronomy_AddDays D (UniversalTime D q_ut) (-((12 / 10) * |fq / q_df_dt|))).ut
                - st.t2.ut) < 0 then
            if ((Astronomy_AddDays D (UniversalTime D q_ut) ((12 / 10) * |fq / q_df_dt|)).ut
                  - st.t1.ut) *
                ((Astronomy_AddDays D (UniversalTime D q_ut) ((12 / 10) * |fq / q_df_dt|)).ut
                  - st.t2.ut) < 0 then
              match callfunc func
                  (Astronomy_AddDays D (UniversalTime D q_ut) (-((12 / 10) * |fq / q_df_dt|))) with
              | Except.error s => search_step_out.ret (SearchError s)
              | Except.ok fleft =>
                match callfunc func
                    (Astronomy_AddDays D (UniversalTime D q_ut) ((12 / 10) * |fq / q_df_dt|)) with
                | Except.error s => search_step_out.ret (SearchError s)
                | Except.ok fright =>
                  if fleft < 0 ∧ 0 ≤ fright then
                    search_step_out.next
                      ⟨Astronomy_AddDays D (UniversalTime D q_ut) (-((12 / 10) * |fq / q_df_dt|)),
                        fleft,
                        Astronomy_AddDays D (UniversalTime D q_ut) ((12 / 10) * |fq / q_df_dt|),
                        fright, fq, false⟩
                  else searchBisect st tmid fmid
            else searchBisect st tmid fmid
          else searchBisect st tmid fmid
        else searchBisect st tmid fmid

/-- One iteration of the `for(;;)` loop body of `Astronomy_Search`,
translated branch for branch from the C source (the part of the body after
the midpoint sample is obtained is split off as `searchStepCont`). -/
def searchStep (D sqrtf : α → α) (func : astro_time α → astro_func_result α)
    (dt_days : α) (st : search_state α) : search_step_out α :=
  if |(st.t2.tt - st.t1.tt) / 2| < dt_days then
    search_step_out.ret ⟨Astronomy_AddDays D st.t1 ((st.t2.tt - st.t1.tt) / 2),
      astro_status.success⟩
  else
    match (if st.calc_fmid then
        callfunc func (Astronomy_AddDays D st.t1 ((st.t2.tt - st.t1.tt) / 2))
      else Except.ok st.fmid) with
    | Except.error s => search_step_out.ret (SearchError s)
    | Except.ok fmid =>
      searchStepCont D sqrtf func dt_days ((st.t2.tt - st.t1.tt) / 2) st
        (Astronomy_AddDays D st.t1 ((st.t2.tt - st.t1.tt) / 2)) fmid

/-- The `for(;;)` loop of `Astronomy_Search` with its iteration budget.
The C loop starts with `iter = 0` and gives up with `ASTRO_NO_CONVERGE`
when `++iter > iter_limit`; equivalently the budget counts down from
`iter_limit` and exhaustion yields `NO_CONVERGE`. -/
def searchLoop (D sqrtf : α → α) (func : astro_time α → astro_func_result α)
    (dt_days : α) : ℕ → search_state α → astro_search_result α
  | 0, _ => SearchError astro_status.noConverge
  | Nat.succ n, st =>
    match searchStep D sqrtf func dt_days st with
    | search_step_out.ret r => r
    | search_step_out.next st2 => searchLoop D sqrtf func dt_days n st2

/-- The constant `iter_limit = 20` from `Astronomy_Search`. -/
def iter_limit : ℕ := 20

/-- The function `Astronomy_Search`: evaluate the function at both window
endpoints (propagating upstream errors), then run the capped loop.  The C
local `fmid` is uninitialized at entry (`calc_fmid = 1` forces it to be
computed before first use), so its initial state value 0 is never read. -/
def Astronomy_Search (D sqrtf : α → α) (func : astro_time α → astro_func_result α)
    (t1 t2 : astro_time α) (dt_tolerance_seconds : α) : astro_search_result α :=
  let dt_days := |dt_tolerance_seconds / (SECONDS_PER_DAY : α)|
  match callfunc func t1 with
  | Except.error s => SearchError s
  | Except.ok f1 =>
    match callfunc func t2 with
    | Except.error s => SearchError s
    | Except.ok f2 =>
      searchLoop D sqrtf func dt_days iter_limit ⟨t1, f1, t2, f2, 0, true⟩

/-- Instrumented variant of `searchLoop` that also counts how many loop
iterations were entered before returning. -/
def searchLoopCount (D sqrtf : α → α) (func : astro_time α → astro_func_result α)
    (dt_days : α) : ℕ → search_state α → astro_search_result α × ℕ
  | 0, _ => (SearchError astro_status.noConverge, 0)
  | Nat.succ n, st =>
    match searchStep D sqrtf func dt_days st with
    | search_step_out.ret r => (r, 1)
    | search_step_out.next st2 =>
      let p := searchLoopCount D sqrtf func dt_days n st2
      (p.1, p.2 + 1)

end Core

/-- Exact rational square root used to instantiate the math-library `sqrt`
collaborator in executable witnesses; it agrees with the real square root on
perfect squares, which is all the witnesses evaluate it on. -/
def ratSqrt (q : ℚ) : ℚ :=
  (Nat.sqrt q.num.toNat : ℚ) / (Nat.sqrt q.den : ℚ)

section CoreLemmas

variable {α : Type} [LinearOrderedField α]

/-- Evaluating the function contract at a point with a non-success status
yields that status as an error. -/
theorem callfunc_error (func : astro_time α → astro_func_result α) (t : astro_time α)
    (h : (func t).status ≠ astro_status.success) :
    callfunc func t = Except.error (func t).status := by
  simp [callfunc, h]

/-- Evaluating the function contract at a point with success status yields
the sampled value. -/
theorem callfunc_ok (func : astro_time α → astro_func_result α) (t : astro_time α)
    (h : (func t).status = astro_status.success) :
    callfunc func t = Except.ok (func t).value := by
  simp [callfunc, h]

/-- A `callfunc` error always carries a non-success status. -/
theorem callfunc_error_ne_success (func : astro_time α → astro_func_result α)
    (t : astro_time α) (s : astro_status) (h : callfunc func t = Except.error s) :
    s ≠ astro_status.success := by
  by_cases hs : (func t).status = astro_status.success
  · simp [callfunc, hs] at h
  · rw [callfunc_error func t hs] at h
    cases h
    exact hs

/-- The instrumented loop never counts more iterations than its budget. -/
theorem searchLoopCount_le (D sqrtf : α → α) (func : astro_time α → astro_func_result α)
    (dt_days : α) : ∀ (n : ℕ) (st : search_state α),
    (searchLoopCount D sqrtf func dt_days n st).2 ≤ n := by
  intro n
  induction n with
  | zero => intro st; simp [searchLoopCount]
  | succ n ih =>
    intro st
    simp only [searchLoopCount]
    cases searchStep D sqrtf func dt_days st with
    | ret r => simp
    | next st2 => simpa using ih st2

/-- The instrumented loop computes the same result as the plain loop. -/
theorem searchLoopCount_fst (D sqrtf : α → α) (func : astro_time α → astro_func_result α)
    (dt_days : α) : ∀ (n : ℕ) (st : search_state α),
    (searchLoopCount D sqrtf func dt_days n st).1 = searchLoop D sqrtf func dt_days n st := by
  intro n
  induction n with
  | zero => intro st; simp [searchLoopCount, searchLoop]
  | succ n ih =>
    intro st
    simp only [searchLoopCount, searchLoop]
    cases searchStep D sqrtf func dt_days st with
    | ret r => simp
    | next st2 => simpa using ih st2

end CoreLemmas

section ClaimC4

variable {α : Type} [LinearOrderedField α]

/-- C4: `Astronomy_Search` performs at most 20 loop iterations for every
input (every search starts the loop with budget `iter_limit = 20`, and the
iteration count of the loop never exceeds its budget, which the instrumented
loop computes while producing the very same result); when the cap is
exceeded, the loop returns the `NO_CONVERGE` status to the caller instead of
iterating further. -/
theorem Astronomy_Search_iteration_cap (D sqrtf : α → α)
    (func : astro_time α → astro_func_result α) (dt_days : α) :
    (∀ st : search_state α,
        (searchLoopCount D sqrtf func dt_days iter_limit st).2 ≤ 20)
    ∧ (∀ (n : ℕ) (st : search_state α),
        (searchLoopCount D sqrtf func dt_days n st).1 =
          searchLoop D sqrtf func dt_days n st)
    ∧ (∀ st : search_state α,
        searchLoop D sqrtf func dt_days 0 st = SearchError astro_status.noConverge) := by
  refine ⟨fun st => ?_, searchLoopCount_fst D sqrtf func dt_days, fun st => rfl⟩
  exact searchLoopCount_le D sqrtf func dt_days iter_limit st

end ClaimC4

section ClaimC10

variable {α : Type} [LinearOrderedField α]

/-- C10: on a window whose half-width is already below the tolerance,
`Astronomy_Search` first evaluates `func` at both endpoints — propagating a
non-success status from `t1`, then from `t2`, immediately — and then returns
status OK with the window midpoint (`t1` advanced by half the terrestrial
width; equal to the arithmetic ut-midpoint when the time scales drift-free)
as the answer, regardless of the endpoint function values: no sign condition
is required. -/
theorem Astronomy_Search_narrow_window_midpoint (D sqrtf : α → α)
    (func : astro_time α → astro_func_result α) (t1 t2 : astro_time α) (tol : α) :
    ((func t1).status ≠ astro_status.success →
        Astronomy_Search D sqrtf func t1 t2 tol = SearchError (func t1).status)
    ∧ ((func t1).status = astro_status.success →
        (func t2).status ≠ astro_status.success →
        Astronomy_Search D sqrtf func t1 t2 tol = SearchError (func t2).status)
    ∧ ((func t1).status = astro_status.success →
        (func t2).status = astro_status.success →
        |(t2.tt - t1.tt) / 2| < |tol / (SECONDS_PER_DAY : α)| →
        Astronomy_Search D sqrtf func t1 t2 tol =
          ⟨Astronomy_AddDays D t1 ((t2.tt - t1.tt) / 2), astro_status.success⟩)
    ∧ ((func t1).status = astro_status.success →
        (func t2).status = astro_status.success →
        |(t2.tt - t1.tt) / 2| < |tol / (SECONDS_PER_DAY : α)| →
        (∀ u v, D u = D v) →
        t1.tt = TerrestrialTime D t1.ut → t2.tt = TerrestrialTime D t2.ut →
        (Astronomy_Search D sqrtf func t1 t2 tol).time.ut = (t1.ut + t2.ut) / 2) := by
  refine ⟨fun h1 => ?_, fun h1 h2 => ?_, fun h1 h2 h3 => ?_, fun h1 h2 h3 hD hw1 hw2 => ?_⟩
  · simp [Astronomy_Search, callfunc_error func t1 h1]
  · simp [Astronomy_Search, callfunc_ok func t1 h1, callfunc_error func t2 h2]
  · have h20 : (iter_limit : ℕ) = 19 + 1 := rfl
    simp only [Astronomy_Search, callfunc_ok func t1 h1, callfunc_ok func t2 h2, h20,
      searchLoop, searchStep]
    rw [if_pos h3]
  · have hmid : Astronomy_Search D sqrtf func t1 t2 tol =
        ⟨Astronomy_AddDays D t1 ((t2.tt - t1.tt) / 2), astro_status.success⟩ := by
      have h20 : (iter_limit : ℕ) = 19 + 1 := rfl
      simp only [Astronomy_Search, callfunc_ok func t1 h1, callfunc_ok func t2 h2, h20,
        searchLoop, searchStep]
      rw [if_pos h3]
    rw [hmid]
    simp only [Astronomy_AddDays]
    rw [hw1, hw2, TerrestrialTime, TerrestrialTime, hD t2.ut t1.ut]
    ring

end ClaimC10

section Containment

variable {α : Type} [LinearOrderedField α]

/-- A time value is well formed when its terrestrial coordinate agrees with
the Delta-T collaborator applied to its universal coordinate (true of every
time built by `UniversalTime` or `Astronomy_AddDays`, and of every time the
C library hands to callers). -/
def timeWellFormed (D : α → α) (t : astro_time α) : Prop :=
  t.tt = TerrestrialTime D t.ut

/-- A tame Delta-T collaborator: monotone, and growing no faster than one
extra terrestrial second per elapsed universal second.  The real Delta-T
table drifts by well under a second per year. -/
def tameDeltaT (D : α → α) : Prop :=
  ∀ u v, u ≤ v → D u ≤ D v ∧ D v - D u ≤ SECONDS_PER_DAY * (v - u)

theorem between_of_mul_neg {a b x : α} (hab : a ≤ b) (h : (x - a) * (x - b) < 0) :
    a < x ∧ x < b := by
  constructor
  · by_contra hc
    push_neg at hc
    nlinarith
  · by_contra hc
    push_neg at hc
    nlinarith

/-- The universal coordinate of a time built by `Astronomy_AddDays`. -/
@[simp] theorem Astronomy_AddDays_ut (D : α → α) (t : astro_time α) (d : α) :
    (Astronomy_AddDays D t d).ut = t.ut + d := rfl

/-- Well-formedness of times built by `Astronomy_AddDays`. -/
theorem timeWellFormed_addDays (D : α → α) (t : astro_time α) (d : α) :
    timeWellFormed D (Astronomy_AddDays D t d) := by
  simp [timeWellFormed, Astronomy_AddDays]

/-- Well-formedness of times built by `UniversalTime`. -/
theorem timeWellFormed_universalTime (D : α → α) (u : α) :
    timeWellFormed D (UniversalTime D u) := by
  simp [timeWellFormed, UniversalTime]

/-- A successful quadratic refinement always reports an abscissa inside the
normalized interval together with the corresponding interpolated time. -/
theorem quadInterp_some_bounds (sqrtf : α → α) (tm dt fa fm fb x t df : α)
    (h : QuadInterp sqrtf tm dt fa fm fb = some (x, t, df)) :
    -1 ≤ x ∧ x ≤ 1 ∧ t = tm + x * dt := by
  simp only [QuadInterp] at h
  split at h
  · split at h
    · exact absurd h (by simp)
    · split at h
      · exact absurd h (by simp)
      · rename_i hout
        push_neg at hout
        simp only [Option.some.injEq, Prod.mk.injEq] at h
        obtain ⟨hx, ht, _⟩ := h
        subst hx
        exact ⟨hout.1, hout.2, ht.symm⟩
  · split at h
    · exact absurd h (by simp)
    · split at h
      · rename_i hin1
        split at h
        · exact absurd h (by simp)
        · simp only [Option.some.injEq, Prod.mk.injEq] at h
          obtain ⟨hx, ht, _⟩ := h
          subst hx
          exact ⟨hin1.1, hin1.2, ht.symm⟩
      · split at h
        · rename_i hin2
          simp only [Option.some.injEq, Prod.mk.injEq] at h
          obtain ⟨hx, ht, _⟩ := h
          subst hx
          exact ⟨hin2.1, hin2.2, ht.symm⟩
        · exact absurd h (by simp)

/-- Invariant carried by one iteration of the search loop: a successful
return lies inside the current bracket, and a continued state is a
well-formed ordered sub-bracket of the current one. -/
def stepInv (D : α → α) (t1 t2 : astro_time α) : search_step_out α → Prop
  | search_step_out.ret r =>
      r.status = astro_status.success → t1.ut ≤ r.time.ut ∧ r.time.ut ≤ t2.ut
  | search_step_out.next st2 =>
      timeWellFormed D st2.t1 ∧ timeWellFormed D st2.t2 ∧
        t1.ut ≤ st2.t1.ut ∧ st2.t1.ut ≤ st2.t2.ut ∧ st2.t2.ut ≤ t2.ut

theorem searchStepCont_inv (D sqrtf : α → α) (func : astro_time α → astro_func_result α)
    (dt_days dt : α) (st : search_state α) (tmid : astro_time α) (fmid : α)
    (hle : st.t1.ut ≤ st.t2.ut)
    (h1 : timeWellFormed D st.t1) (h2 : timeWellFormed D st.t2)
    (htm : tmid = Astronomy_AddDays D st.t1 dt)
    (hdt_lo : (st.t2.ut - st.t1.ut) / 2 ≤ dt)
    (hdt_hi : dt ≤ st.t2.ut - st.t1.ut) :
    stepInv D st.t1 st.t2 (searchStepCont D sqrtf func dt_days dt st tmid fmid) := by
  have htmid_ut : tmid.ut = st.t1.ut + dt := by rw [htm]; rfl
  have hm1 : st.t1.ut ≤ tmid.ut := by rw [htmid_ut]; linarith
  have hm2 : tmid.ut ≤ st.t2.ut := by rw [htmid_ut]; linarith
  have hwtm : timeWellFormed D tmid := htm ▸ timeWellFormed_addDays D st.t1 dt
  have hbis : stepInv D st.t1 st.t2 (searchBisect st tmid fmid) := by
    unfold searchBisect
    split
    · exact ⟨h1, hwtm, le_refl _, hm1, hm2⟩
    · split
      · exact ⟨hwtm, h2, hm1, hm2, le_refl _⟩
      · intro hs
        simp [SearchError] at hs
  unfold searchStepCont
  split
  · exact hbis
  · rename_i x q_ut q_df_dt hquad
    obtain ⟨hx1, hx2, hq⟩ := quadInterp_some_bounds sqrtf _ _ _ _ _ _ _ _ hquad
    have key1 : 0 ≤ (x + 1) * (st.t2.ut - tmid.ut) :=
      mul_nonneg (by linarith) (by linarith)
    have key2 : 0 ≤ (1 - x) * (st.t2.ut - tmid.ut) :=
      mul_nonneg (by linarith) (by linarith)
    have e1 : q_ut - st.t1.ut =
        (2 * tmid.ut - st.t1.ut - st.t2.ut) + (x + 1) * (st.t2.ut - tmid.ut) := by
      rw [hq]; ring
    have e2 : st.t2.ut - q_ut = (1 - x) * (st.t2.ut - tmid.ut) := by
      rw [hq]; ring
    have hq_lo : st.t1.ut ≤ q_ut := by
      have : 0 ≤ 2 * tmid.ut - st.t1.ut - st.t2.ut := by rw [htmid_ut]; linarith
      linarith [e1, key1]
    have hq_hi : q_ut ≤ st.t2.ut := by linarith [e2, key2]
    split
    · rename_i s heq
      intro hs
      exact absurd (by simpa [SearchError] using hs)
        (callfunc_error_ne_success func _ s heq)
    · rename_i fq heq
      split
      · exact hbis
      · split
        · intro _
          exact ⟨hq_lo, hq_hi⟩
        · split
          · split
            · rename_i hprodl
              split
              · rename_i hprodr
                split
                · rename_i s h3
                  intro hs
                  exact absurd (by simpa [SearchError] using hs)
                    (callfunc_error_ne_success func _ s h3)
                · rename_i fleft h3
                  split
                  · rename_i s h4
                    intro hs
                    exact absurd (by simpa [SearchError] using hs)
                      (callfunc_error_ne_success func _ s h4)
                  · rename_i fright h4
                    split
                    · have hbl := between_of_mul_neg hle hprodl
                      have hbr := between_of_mul_neg hle hprodr
                      refine ⟨timeWellFormed_addDays D _ _, timeWellFormed_addDays D _ _,
                        le_of_lt hbl.1, ?_, le_of_lt hbr.2⟩
                      have hg : (0:α) ≤ 12 / 10 * |fq / q_df_dt| := by positivity
                      simp only [Astronomy_AddDays, UniversalTime]
                      linarith
                    · exact hbis
              · exact hbis
            · exact hbis
          · exact hbis

theorem searchStep_inv (D sqrtf : α → α) (func : astro_time α → astro_func_result α)
    (dt_days : α) (HD : tameDeltaT D) (st : search_state α)
    (h1 : timeWellFormed D st.t1) (h2 : timeWellFormed D st.t2)
    (hle : st.t1.ut ≤ st.t2.ut) :
    stepInv D st.t1 st.t2 (searchStep D sqrtf func dt_days st) := by
  obtain ⟨hD1, hD2⟩ := HD st.t1.ut st.t2.ut hle
  have e : (st.t2.tt - st.t1.tt) / 2 =
      (st.t2.ut - st.t1.ut) / 2 + (D st.t2.ut - D st.t1.ut) / (2 * SECONDS_PER_DAY) := by
    rw [h1, h2]
    unfold TerrestrialTime SECONDS_PER_DAY
    field_simp
    ring
  have hsp : (SECONDS_PER_DAY : α) = 86400 := rfl
  rw [hsp] at e hD2
  have hA : (0:α) ≤ D st.t2.ut - D st.t1.ut := by linarith
  have hdiv0 : (0:α) ≤ (D st.t2.ut - D st.t1.ut) / (2 * 86400) :=
    div_nonneg hA (by norm_num)
  have hdiv1 : (D st.t2.ut - D st.t1.ut) / (2 * 86400) ≤ (st.t2.ut - st.t1.ut) / 2 := by
    rw [div_le_div_iff (by norm_num) (by norm_num)]
    nlinarith
  have hdt_lo : (st.t2.ut - st.t1.ut) / 2 ≤ (st.t2.tt - st.t1.tt) / 2 := by
    rw [e]; linarith
  have hdt_hi : (st.t2.tt - st.t1.tt) / 2 ≤ st.t2.ut - st.t1.ut := by
    rw [e]; linarith
  unfold searchStep
  split
  · intro _
    simp only [Astronomy_AddDays]
    exact ⟨by linarith, by linarith⟩
  · split
    · rename_i s heq
      intro hs
      exfalso
      rcases hc : st.calc_fmid with _ | _ <;> rw [hc] at heq
      · simp at heq
      · exact callfunc_error_ne_success func _ s heq (by simpa [SearchError] using hs)
    · rename_i fmid heq
      exact searchStepCont_inv D sqrtf func dt_days _ st _ fmid hle h1 h2 rfl hdt_lo hdt_hi

/-- The search loop keeps every successful result inside its initial
bracket. -/
theorem searchLoop_success_in_window (D sqrtf : α → α)
    (func : astro_time α → astro_func_result α) (dt_days : α) (HD : tameDeltaT D) :
    ∀ (n : ℕ) (st : search_state α), timeWellFormed D st.t1 → timeWellFormed D st.t2 →
      st.t1.ut ≤ st.t2.ut →
      (searchLoop D sqrtf func dt_days n st).status = astro_status.success →
      st.t1.ut ≤ (searchLoop D sqrtf func dt_days n st).time.ut ∧
        (searchLoop D sqrtf func dt_days n st).time.ut ≤ st.t2.ut := by
  intro n
  induction n with
  | zero =>
    intro st _ _ _ hs
    simp [searchLoop, SearchError] at hs
  | succ n ih =>
    intro st h1 h2 hle hs
    have hinv := searchStep_inv D sqrtf func dt_days HD st h1 h2 hle
    simp only [searchLoop] at hs ⊢
    cases hstep : searchStep D sqrtf func dt_days st with
    | ret r =>
      rw [hstep] at hinv
      rw [hstep] at hs
      dsimp only at hs ⊢
      exact hinv hs
    | next st2 =>
      rw [hstep] at hinv
      rw [hstep] at hs
      dsimp only at hs ⊢
      obtain ⟨w1, w2, b1, b2, b3⟩ := hinv
      have hih := ih st2 w1 w2 b2 hs
      exact ⟨le_trans b1 hih.1, le_trans hih.2 b3⟩

end Containment

section ClaimC1

variable {α : Type} [LinearOrderedField α]

/-- C1 (amended): whenever `Astronomy_Search` returns status OK, the
returned time lies within the original window `[t1, t2]` — for well-formed
input times and a tame Delta-T collaborator.  (The other half of the
original claim, that `|f|` at the returned time is below the tolerance
converted to days, is refuted by `Astronomy_Search_ok_not_small_residual_cex`:
the narrow-window acceptance path never samples `f` at the returned time.) -/
theorem Astronomy_Search_ok_time_in_window (D sqrtf : α → α)
    (func : astro_time α → astro_func_result α) (t1 t2 : astro_time α) (tol : α)
    (HD : tameDeltaT D) (h1 : timeWellFormed D t1) (h2 : timeWellFormed D t2)
    (hle : t1.ut ≤ t2.ut)
    (hs : (Astronomy_Search D sqrtf func t1 t2 tol).status = astro_status.success) :
    t1.ut ≤ (Astronomy_Search D sqrtf func t1 t2 tol).time.ut ∧
      (Astronomy_Search D sqrtf func t1 t2 tol).time.ut ≤ t2.ut := by
  unfold Astronomy_Search at hs ⊢
  cases hc1 : callfunc func t1 with
  | error s =>
    rw [hc1] at hs
    dsimp only at hs
    exact absurd (by simpa [SearchError] using hs) (callfunc_error_ne_success func t1 s hc1)
  | ok f1 =>
    rw [hc1] at hs
    dsimp only at hs ⊢
    cases hc2 : callfunc func t2 with
    | error s =>
      rw [hc2] at hs
      dsimp only at hs
      exact absurd (by simpa [SearchError] using hs) (callfunc_error_ne_success func t2 s hc2)
    | ok f2 =>
      rw [hc2] at hs
      dsimp only at hs ⊢
      exact searchLoop_success_in_window D sqrtf func _ HD iter_limit
        ⟨t1, f1, t2, f2, 0, true⟩ h1 h2 hle hs

end ClaimC1

section QuadSign

variable {α : Type} [LinearOrderedField α]

theorem no_single_root_in_range {Q a b fa fb : α}
    (hfa : fa = Q * (1 + a) * (1 + b)) (hfb : fb = Q * (1 - a) * (1 - b))
    (hab : 0 < fa * fb) (ha1 : -1 ≤ a) (ha2 : a ≤ 1) (hbout : b < -1 ∨ 1 < b) : False := by
  have hprod : fa * fb = ((Q * Q) * ((1 - a) * (1 + a))) * ((1 - b) * (1 + b)) := by
    rw [hfa, hfb]; ring
  have h1 : 0 ≤ (1 - a) * (1 + a) := mul_nonneg (by linarith) (by linarith)
  have h2 : (1 - b) * (1 + b) < 0 := by
    rcases hbout with h | h
    · exact mul_neg_of_pos_of_neg (by linarith) (by linarith)
    · exact mul_neg_of_neg_of_pos (by linarith) (by linarith)
  nlinarith [mul_nonneg (mul_self_nonneg Q) h1]

/-- With an exact square root, `QuadInterp` rejects every sample triple
whose outer values have the same strict sign: a parabola (or line) through
such samples never has exactly one root in the normalized interval. -/
theorem quadInterp_none_of_same_sign (sqrtf : α → α) (tm dt fa fm fb : α)
    (hsq : ∀ y, 0 < y → 0 ≤ sqrtf y ∧ sqrtf y * sqrtf y = y)
    (hs : (0 < fa ∧ 0 < fb) ∨ (fa < 0 ∧ fb < 0)) :
    QuadInterp sqrtf tm dt fa fm fb = none := by
  have hab : 0 < fa * fb := by
    rcases hs with ⟨h1, h2⟩ | ⟨h1, h2⟩
    · exact mul_pos h1 h2
    · exact mul_pos_of_neg_of_neg h1 h2
  simp only [QuadInterp]
  split
  · rename_i hQ0
    split
    · rfl
    · rename_i hR0
      rw [if_pos ?_]
      rcases lt_or_gt_of_ne (fun h => hR0 h) with hR | hR
      · -- R < 0
        rcases hs with ⟨h1, h2⟩ | ⟨h1, h2⟩
        · -- both positive: root is right of 1
          right
          rw [gt_iff_lt, lt_div_iff_of_neg hR]
          nlinarith
        · -- both negative: root is left of -1
          left
          rw [div_lt_iff_of_neg hR]
          nlinarith
      · -- R > 0
        rcases hs with ⟨h1, h2⟩ | ⟨h1, h2⟩
        · left
          rw [div_lt_iff hR]
          nlinarith
        · right
          rw [gt_iff_lt, lt_div_iff hR]
          nlinarith
  · rename_i hQne
    split
    · rfl
    · rename_i hupos
      push_neg at hupos
      obtain ⟨hrupos, hru2⟩ := hsq _ hupos
      set Q := (fb + fa) / 2 - fm with hQdef
      set R := (fb - fa) / 2 with hRdef
      set ru := sqrtf (R * R - 4 * Q * fm) with hrudef
      set x1 := (-R + ru) / (2 * Q) with hx1def
      set x2 := (-R - ru) / (2 * Q) with hx2def
      have h4Q : (4 * Q) ≠ 0 := mul_ne_zero (by norm_num) hQne
      have h2Q : (2 * Q) ≠ 0 := mul_ne_zero (by norm_num) hQne
      have hx1m : 2 * Q * x1 = -R + ru := by
        rw [hx1def, mul_div_cancel₀ _ h2Q]
      have hx2m : 2 * Q * x2 = -R - ru := by
        rw [hx2def, mul_div_cancel₀ _ h2Q]
      have hfa4 : (4 * Q) * (Q * (1 + x1) * (1 + x2)) = (4 * Q) * (Q - R + fm) := by
        linear_combination (2*Q*(1 + x2)) * hx1m + (2*Q - R + ru) * hx2m - hru2
      have hfb4 : (4 * Q) * (Q * (1 - x1) * (1 - x2)) = (4 * Q) * (Q + R + fm) := by
        linear_combination (-2*Q*(1 - x2)) * hx1m + (-2*Q - R + ru) * hx2m - hru2
      have hfa2 : fa = Q * (1 + x1) * (1 + x2) := by
        have := mul_left_cancel₀ h4Q hfa4
        rw [this, hQdef, hRdef]; ring
      have hfb2 : fb = Q * (1 - x1) * (1 - x2) := by
        have := mul_left_cancel₀ h4Q hfb4
        rw [this, hQdef, hRdef]; ring
      split
      · rename_i h1in
        split
        · rfl
        · rename_i h2out
          exfalso
          have h2out2 : x2 < -1 ∨ 1 < x2 := by
            rcases not_and_or.mp h2out with h | h
            · left; linarith [lt_of_not_le h]
            · right; linarith [lt_of_not_le h]
          exact no_single_root_in_range hfa2 hfb2 hab h1in.1 h1in.2 h2out2
      · rename_i h1out
        split
        · rename_i h2in
          exfalso
          have h1out2 : x1 < -1 ∨ 1 < x1 := by
            rcases not_and_or.mp h1out with h | h
            · left; linarith [lt_of_not_le h]
            · right; linarith [lt_of_not_le h]
          have hfa3 : fa = Q * (1 + x2) * (1 + x1) := by rw [hfa2]; ring
          have hfb3 : fb = Q * (1 - x2) * (1 - x1) := by rw [hfb2]; ring
          exact no_single_root_in_range hfa3 hfb3 hab h2in.1 h2in.2 h1out2
        · rfl

end QuadSign


section C2Main

variable {α : Type} [LinearOrderedField α]

theorem searchStep_calc_true (D sqrtf : α → α) (func : astro_time α → astro_func_result α)
    (dt_days : α) (a : astro_time α) (f1 : α) (b : astro_time α) (f2 fm0 : α) :
    searchStep D sqrtf func dt_days ⟨a, f1, b, f2, fm0, true⟩ =
      if |(b.tt - a.tt) / 2| < dt_days then
        search_step_out.ret ⟨Astronomy_AddDays D a ((b.tt - a.tt) / 2), astro_status.success⟩
      else
        match callfunc func (Astronomy_AddDays D a ((b.tt - a.tt) / 2)) with
        | Except.error s => search_step_out.ret (SearchError s)
        | Except.ok fmid =>
          searchStepCont D sqrtf func dt_days ((b.tt - a.tt) / 2) ⟨a, f1, b, f2, fm0, true⟩
            (Astronomy_AddDays D a ((b.tt - a.tt) / 2)) fmid := rfl

/-- C2 (amended): a window on which the function is strictly positive
everywhere (or strictly negative everywhere) — in particular one lying
entirely on one side of a crossing — makes `Astronomy_Search` return
`SEARCH_FAILURE` on its first iteration, provided the window is not already
narrower than the tolerance (in which case the midpoint is accepted without
any sign check, see `Astronomy_Search_same_sign_success_cex`). -/
theorem Astronomy_Search_one_sided_search_failure (D sqrtf : α → α)
    (func : astro_time α → astro_func_result α) (t1 t2 : astro_time α) (tol : α)
    (hsq : ∀ y, 0 < y → 0 ≤ sqrtf y ∧ sqrtf y * sqrtf y = y)
    (hok : ∀ t, (func t).status = astro_status.success)
    (hsgn : (∀ t, 0 < (func t).value) ∨ (∀ t, (func t).value < 0))
    (hwide : ¬ (|(t2.tt - t1.tt) / 2| < |tol / (SECONDS_PER_DAY : α)|)) :
    Astronomy_Search D sqrtf func t1 t2 tol = SearchError astro_status.searchFailure := by
  unfold Astronomy_Search
  rw [callfunc_ok func t1 (hok t1), callfunc_ok func t2 (hok t2)]
  dsimp only
  rw [show (iter_limit : ℕ) = 19 + 1 from rfl]
  simp only [searchLoop]
  rw [searchStep_calc_true, if_neg hwide,
    callfunc_ok func _ (hok _)]
  dsimp only
  unfold searchStepCont
  dsimp only
  rw [quadInterp_none_of_same_sign sqrtf _ _ _ _ _ hsq ?_]
  · unfold searchBisect
    rcases hsgn with hpos | hneg
    · rw [if_neg (by
        dsimp only
        intro hc
        exact absurd (hpos t1) (not_lt.mpr (le_of_lt hc.1)))]
      rw [if_neg (by
        intro hc
        exact absurd (hpos _) (not_lt.mpr (le_of_lt hc.1)))]
    · rw [if_neg (by
        dsimp only
        intro hc
        exact absurd hc.2 (not_le.mpr (hneg _)))]
      rw [if_neg (by
        dsimp only
        intro hc
        exact absurd hc.2 (not_le.mpr (hneg t2)))]
  · rcases hsgn with hpos | hneg
    · exact Or.inl ⟨hpos t1, hpos t2⟩
    · exact Or.inr ⟨hneg t1, hneg t2⟩

end C2Main

/-- Shared executable instantiations for the rational-field witnesses: a
drift-free Delta-T collaborator and some concrete continuous-function
contracts. -/
def qD0 : ℚ → ℚ := fun _ => 0

/-- A function contract that is the constant 5 (strictly positive, no
crossing anywhere). -/
def qConst5 : astro_time ℚ → astro_func_result ℚ := fun _ => ⟨5, astro_status.success⟩

/-- A function contract that is positive at both ends of `[0, 8]` but dips
negative in the middle (two crossings inside the window). -/
def qDip : astro_time ℚ → astro_func_result ℚ := fun t =>
  if t.ut < 2 then ⟨5, astro_status.success⟩
  else if t.ut < 6 then ⟨-4, astro_status.success⟩
  else ⟨5, astro_status.success⟩

/-- The drift-free real Delta-T collaborator for the real-field witnesses. -/
def rD0 : ℝ → ℝ := fun _ => 0

/-- The constant-1 function contract over the reals. -/
def rConst1 : astro_time ℝ → astro_func_result ℝ := fun _ => ⟨1, astro_status.success⟩

unseal Nat.sqrt.iter Rat.add Rat.mul Rat.sub Rat.inv in
/-- C1 counterexample: `Astronomy_Search` on the constant function 5 over
the narrow window `[0, 1]` with a 1-day tolerance returns OK, yet the
magnitude of the function at the returned time (5) is not below the
tolerance converted from seconds to days (1): the claimed residual bound is
false on the code. -/
theorem Astronomy_Search_ok_not_small_residual_cex :
    (Astronomy_Search qD0 ratSqrt qConst5 ⟨0, 0⟩ ⟨1, 1⟩ 86400).status = astro_status.success
    ∧ ¬ (|(qConst5 ((Astronomy_Search qD0 ratSqrt qConst5 ⟨0, 0⟩ ⟨1, 1⟩ 86400).time)).value|
          < |(86400 : ℚ) / SECONDS_PER_DAY|) := by
  constructor
  · decide
  · decide

unseal Nat.sqrt.iter Rat.add Rat.mul Rat.sub Rat.inv in
/-- C1 witness: the amended containment theorem applied to a concrete run
that succeeds (constant function, narrow window, drift-free Delta-T). -/
theorem Astronomy_Search_ok_time_in_window_witness :
    (Astronomy_Search qD0 ratSqrt qConst5 ⟨0, 0⟩ ⟨1, 1⟩ 86400).status = astro_status.success
    ∧ ((0 : ℚ) ≤ (Astronomy_Search qD0 ratSqrt qConst5 ⟨0, 0⟩ ⟨1, 1⟩ 86400).time.ut
        ∧ (Astronomy_Search qD0 ratSqrt qConst5 ⟨0, 0⟩ ⟨1, 1⟩ 86400).time.ut ≤ 1) := by
  have hs : (Astronomy_Search qD0 ratSqrt qConst5 ⟨0, 0⟩ ⟨1, 1⟩ 86400).status =
      astro_status.success := by decide
  refine ⟨hs, Astronomy_Search_ok_time_in_window qD0 ratSqrt qConst5 ⟨0, 0⟩ ⟨1, 1⟩ 86400
    ?_ ?_ ?_ ?_ hs⟩
  · intro u v huv
    refine ⟨le_refl _, ?_⟩
    have : (0:ℚ) ≤ SECONDS_PER_DAY * (v - u) := by
      have h0 : (0:ℚ) ≤ v - u := by linarith
      have h1 : (0:ℚ) ≤ (SECONDS_PER_DAY : ℚ) := by norm_num [SECONDS_PER_DAY]
      exact mul_nonneg h1 h0
    simpa [qD0] using this
  · simp [timeWellFormed, TerrestrialTime, qD0]
  · simp [timeWellFormed, TerrestrialTime, qD0]
  · norm_num

unseal Nat.sqrt.iter Rat.add Rat.mul Rat.sub Rat.inv in
/-- C2 counterexample: two concrete runs on which `f(t1)` and `f(t2)` have
the same (positive) sign and yet the search returns a success result rather
than `SEARCH_FAILURE`: a window already narrower than the tolerance (the
midpoint is accepted unchecked), and a wide window on which the function
dips negative between two positive endpoints (the bisection locks onto one
of the two interior crossings). -/
theorem Astronomy_Search_same_sign_success_cex :
    (0 < (qConst5 (⟨0, 0⟩ : astro_time ℚ)).value ∧ 0 < (qConst5 ⟨1, 1⟩).value ∧
      (Astronomy_Search qD0 ratSqrt qConst5 ⟨0, 0⟩ ⟨1, 1⟩ 86400).status = astro_status.success)
    ∧ (0 < (qDip (⟨0, 0⟩ : astro_time ℚ)).value ∧ 0 < (qDip ⟨8, 8⟩).value ∧
      (Astronomy_Search qD0 ratSqrt qDip ⟨0, 0⟩ ⟨8, 8⟩ (3 * 86400)).status
        = astro_status.success) := by
  constructor
  · exact ⟨by decide, by decide, by decide⟩
  · exact ⟨by decide, by decide, by decide⟩

/-- C2 witness: the amended theorem applied over the reals with the genuine
square root, to the everywhere-positive constant function 1 on the wide
window `[0, 4]` with a one-day tolerance. -/
theorem Astronomy_Search_one_sided_search_failure_witness :
    ((∀ y : ℝ, 0 < y → 0 ≤ Real.sqrt y ∧ Real.sqrt y * Real.sqrt y = y)
      ∧ (∀ t, (rConst1 t).status = astro_status.success)
      ∧ (∀ t, 0 < (rConst1 t).value)
      ∧ ¬ (|(((⟨4, 4⟩ : astro_time ℝ).tt - (⟨0, 0⟩ : astro_time ℝ).tt)) / 2|
            < |(86400 : ℝ) / SECONDS_PER_DAY|))
    ∧ Astronomy_Search rD0 Real.sqrt rConst1 ⟨0, 0⟩ ⟨4, 4⟩ 86400
        = SearchError astro_status.searchFailure := by
  have hsq : ∀ y : ℝ, 0 < y → 0 ≤ Real.sqrt y ∧ Real.sqrt y * Real.sqrt y = y :=
    fun y hy => ⟨Real.sqrt_nonneg y, Real.mul_self_sqrt (le_of_lt hy)⟩
  have hok : ∀ t, (rConst1 t).status = astro_status.success := fun _ => rfl
  have hpos : ∀ t, 0 < (rConst1 t).value := fun _ => one_pos
  have hwide : ¬ (|(((⟨4, 4⟩ : astro_time ℝ).tt - (⟨0, 0⟩ : astro_time ℝ).tt)) / 2|
      < |(86400 : ℝ) / SECONDS_PER_DAY|) := by
    norm_num [SECONDS_PER_DAY]
  exact ⟨⟨hsq, hok, hpos, hwide⟩,
    Astronomy_Search_one_sided_search_failure rD0 Real.sqrt rConst1 ⟨0, 0⟩ ⟨4, 4⟩ 86400
      hsq hok (Or.inl hpos) hwide⟩


section ClaimC3

variable {α : Type} [LinearOrderedField α]

/-- Evaluation of `QuadInterp` on the exact samples of the parabola
`p(x) = a x^2 + b x + c` at the normalized positions -1, 0, +1: the fitted
coefficients recover `Q = a`, `R = b`, `S = c` exactly. -/
theorem QuadInterp_on_parabola (sqrtf : α → α) (tm dt a b c : α) :
    QuadInterp sqrtf tm dt (a - b + c) c (a + b + c) =
      if a = 0 then
        if b = 0 then none
        else
          if -c / b < -1 ∨ -c / b > 1 then none
          else some (-c / b, tm + -c / b * dt, (2 * a * (-c / b) + b) / dt)
      else
        if b * b - 4 * a * c ≤ 0 then none
        else
          if -1 ≤ (-b + sqrtf (b * b - 4 * a * c)) / (2 * a) ∧
              (-b + sqrtf (b * b - 4 * a * c)) / (2 * a) ≤ 1 then
            if -1 ≤ (-b - sqrtf (b * b - 4 * a * c)) / (2 * a) ∧
                (-b - sqrtf (b * b - 4 * a * c)) / (2 * a) ≤ 1 then none
            else some ((-b + sqrtf (b * b - 4 * a * c)) / (2 * a),
              tm + (-b + sqrtf (b * b - 4 * a * c)) / (2 * a) * dt,
              (2 * a * ((-b + sqrtf (b * b - 4 * a * c)) / (2 * a)) + b) / dt)
          else
            if -1 ≤ (-b - sqrtf (b * b - 4 * a * c)) / (2 * a) ∧
                (-b - sqrtf (b * b - 4 * a * c)) / (2 * a) ≤ 1 then
              some ((-b - sqrtf (b * b - 4 * a * c)) / (2 * a),
                tm + (-b - sqrtf (b * b - 4 * a * c)) / (2 * a) * dt,
                (2 * a * ((-b - sqrtf (b * b - 4 * a * c)) / (2 * a)) + b) / dt)
            else none := by
  simp only [QuadInterp]
  rw [show (a + b + c + (a - b + c)) / 2 - c = a from by ring]
  rw [show (a + b + c - (a - b + c)) / 2 = b from by ring]

/-- Root equation for the accepted abscissa in the quadratic branch. -/
theorem parabola_root_of_accept (a b c ru x : α) (ha : a ≠ 0)
    (hru2 : ru * ru = b * b - 4 * a * c) (hx : 2 * a * x = -b + ru ∨ 2 * a * x = -b - ru) :
    a * x ^ 2 + b * x + c = 0 := by
  have h4a : (4 * a) ≠ 0 := mul_ne_zero (by norm_num) ha
  have h4 : (4 * a) * (a * x ^ 2 + b * x + c) = (4 * a) * 0 := by
    rcases hx with hx | hx
    · linear_combination (2 * a * x + b + ru) * hx + hru2
    · linear_combination (2 * a * x + b - ru) * hx + hru2
  exact mul_left_cancel₀ h4a h4

/-- The normalized interval `[-1, 1]` that `QuadInterp` accepts roots in. -/
@[reducible] def inUnit (x : α) : Prop := -1 ≤ x ∧ x ≤ 1

/-- The first root `x1 = (-R + sqrt u) / (2 Q)` computed by `QuadInterp` on
exact parabola samples (`Q = a`, `R = b`, `S = c`). -/
def quadRoot1 (sqrtf : α → α) (a b c : α) : α :=
  (-b + sqrtf (b * b - 4 * a * c)) / (2 * a)

/-- The second root `x2 = (-R - sqrt u) / (2 Q)` computed by `QuadInterp` on
exact parabola samples. -/
def quadRoot2 (sqrtf : α → α) (a b c : α) : α :=
  (-b - sqrtf (b * b - 4 * a * c)) / (2 * a)

/-- C3: `QuadInterp`, fed the three exact samples of the parabola
`p(x) = a·x² + b·x + c` at normalized positions -1, 0, +1 (so that the
fitted coefficients are exactly `Q = a`, `R = b`, `S = c`):
(i) when the parabola is proper (`a ≠ 0`), the discriminant `u = b² - 4ac`
is positive, the square-root collaborator is exact at `u`, and exactly one
of the two computed roots lies in `[-1, 1]`, it accepts, returning that
root `x` (which solves `p(x) = 0`), the mapped time `t = tm + x·dt`, and
the analytically correct derivative `(2ax + b)/dt`;
(ii) for an exact line (`a = 0`, `b ≠ 0`) with its root in range it accepts
likewise; and it rejects — returns `none` — (iii) whenever `u ≤ 0`,
(iv) whenever both computed roots lie in `[-1, 1]`, (v) whenever neither
does, and (vi) in the degenerate case `a = 0` with `b = 0`. -/
theorem QuadInterp_parabola_spec (sqrtf : α → α) (tm dt a b c : α) :
    (a ≠ 0 → 0 < b * b - 4 * a * c →
      0 ≤ sqrtf (b * b - 4 * a * c) →
      sqrtf (b * b - 4 * a * c) * sqrtf (b * b - 4 * a * c) = b * b - 4 * a * c →
      ((inUnit (quadRoot1 sqrtf a b c) ∧ ¬ inUnit (quadRoot2 sqrtf a b c)) ∨
        (¬ inUnit (quadRoot1 sqrtf a b c) ∧ inUnit (quadRoot2 sqrtf a b c))) →
      ∃ x, QuadInterp sqrtf tm dt (a - b + c) c (a + b + c) =
          some (x, tm + x * dt, (2 * a * x + b) / dt) ∧
        a * x ^ 2 + b * x + c = 0 ∧ inUnit x)
    ∧ (a = 0 → b ≠ 0 → inUnit (-c / b) →
        QuadInterp sqrtf tm dt (a - b + c) c (a + b + c) =
          some (-c / b, tm + -c / b * dt, (2 * a * (-c / b) + b) / dt))
    ∧ (b * b - 4 * a * c ≤ 0 →
        QuadInterp sqrtf tm dt (a - b + c) c (a + b + c) = none)
    ∧ (a ≠ 0 → inUnit (quadRoot1 sqrtf a b c) → inUnit (quadRoot2 sqrtf a b c) →
        QuadInterp sqrtf tm dt (a - b + c) c (a + b + c) = none)
    ∧ (a ≠ 0 → ¬ inUnit (quadRoot1 sqrtf a b c) → ¬ inUnit (quadRoot2 sqrtf a b c) →
        QuadInterp sqrtf tm dt (a - b + c) c (a + b + c) = none)
    ∧ (a = 0 → b = 0 →
        QuadInterp sqrtf tm dt (a - b + c) c (a + b + c) = none) := by
  have h0 := QuadInterp_on_parabola sqrtf tm dt a b c
  have h2a : a ≠ 0 → (2 * a) ≠ 0 := fun ha => mul_ne_zero (by norm_num) ha
  refine ⟨?_, ?_, ?_, ?_, ?_, ?_⟩
  · intro ha hu hs1 hs2 hone
    rw [h0, if_neg ha, if_neg (not_le.mpr hu)]
    simp only [inUnit, quadRoot1, quadRoot2] at hone
    rcases hone with ⟨h1, h2⟩ | ⟨h1, h2⟩
    · rw [if_pos h1, if_neg h2]
      refine ⟨_, rfl, ?_, h1⟩
      exact parabola_root_of_accept a b c _ _ ha hs2
        (Or.inl (mul_div_cancel₀ _ (h2a ha)))
    · rw [if_neg h1, if_pos h2]
      refine ⟨_, rfl, ?_, h2⟩
      exact parabola_root_of_accept a b c _ _ ha hs2
        (Or.inr (mul_div_cancel₀ _ (h2a ha)))
  · intro ha hb hin
    rw [h0, if_pos ha, if_neg hb,
      if_neg (not_or.mpr ⟨not_lt.mpr hin.1, not_lt.mpr hin.2⟩)]
  · intro hu
    rw [h0]
    by_cases ha : a = 0
    · rw [if_pos ha]
      have hb : b = 0 := by
        have hbb : b * b ≤ 0 := by rw [ha] at hu; linarith
        exact mul_self_eq_zero.mp (le_antisymm hbb (mul_self_nonneg b))
      rw [if_pos hb]
    · rw [if_neg ha, if_pos hu]
  · intro ha h1 h2
    rw [h0, if_neg ha]
    by_cases hu : b * b - 4 * a * c ≤ 0
    · rw [if_pos hu]
    · simp only [inUnit, quadRoot1, quadRoot2] at h1 h2
      rw [if_neg hu, if_pos h1, if_pos h2]
  · intro ha h1 h2
    rw [h0, if_neg ha]
    by_cases hu : b * b - 4 * a * c ≤ 0
    · rw [if_pos hu]
    · simp only [inUnit, quadRoot1, quadRoot2] at h1 h2
      rw [if_neg hu, if_neg h1, if_neg h2]
  · intro ha hb
    rw [h0, if_pos ha, if_pos hb]

unseal Nat.sqrt.iter Rat.add Rat.mul Rat.sub Rat.inv in
/-- C3 witness: the acceptance branch applied to the concrete parabola
`x² - (5/2)x + 1`, whose roots are 2 (out of range) and 1/2 (in range) with
discriminant 9/4, a perfect square on which `ratSqrt` is exact. -/
theorem QuadInterp_parabola_spec_witness :
    ((1 : ℚ) ≠ 0 ∧ 0 < (-5/2 : ℚ) * (-5/2) - 4 * 1 * 1
      ∧ 0 ≤ ratSqrt ((-5/2 : ℚ) * (-5/2) - 4 * 1 * 1)
      ∧ ratSqrt ((-5/2 : ℚ) * (-5/2) - 4 * 1 * 1) *
          ratSqrt ((-5/2 : ℚ) * (-5/2) - 4 * 1 * 1) = (-5/2 : ℚ) * (-5/2) - 4 * 1 * 1
      ∧ (¬ inUnit (quadRoot1 ratSqrt (1 : ℚ) (-5/2) 1)
          ∧ inUnit (quadRoot2 ratSqrt (1 : ℚ) (-5/2) 1)))
    ∧ ∃ x : ℚ, QuadInterp ratSqrt 0 1 (1 - (-5/2) + 1) 1 (1 + (-5/2) + 1) =
          some (x, 0 + x * 1, (2 * 1 * x + (-5/2)) / 1)
        ∧ 1 * x ^ 2 + (-5/2) * x + 1 = 0 ∧ inUnit x := by
  refine ⟨⟨by decide, by decide, by decide, by decide, by decide, by decide⟩, ?_⟩
  exact (QuadInterp_parabola_spec ratSqrt 0 1 1 (-5/2) 1).1 (by decide) (by decide)
    (by decide) (by decide) (Or.inr ⟨by decide, by decide⟩)

end ClaimC3


section MoonPhase

variable {α : Type} [LinearOrderedField α] [FloorRing α]

/-- The `astro_angle_result_t` structure. -/
structure astro_angle_result (α : Type) where
  angle : α
  status : astro_status
  deriving DecidableEq, Repr

/-- The `astro_moon_quarter_t` structure (`quarter` is a C `int`). -/
structure astro_moon_quarter (α : Type) where
  quarter : ℤ
  time : astro_time α
  status : astro_status
  deriving DecidableEq, Repr

/-- The helper `FuncError` (NAN payload modelled as 0). -/
def FuncError (s : astro_status) : astro_func_result α :=
  ⟨0, s⟩

/-- The helper `MoonQuarterError`: `quarter = -1`, NAN time (modelled 0). -/
def MoonQuarterError (s : astro_status) : astro_moon_quarter α :=
  ⟨-1, ⟨0, 0⟩, s⟩

/-- The function `LongitudeOffset`: the C source normalizes by a pair of
`while` loops adding or subtracting 360 until the offset lies in
`(-180, 180]`; this is its closed form (the unique such representative). -/
def LongitudeOffset (diff : α) : α :=
  diff - 360 * ⌈(diff - 180) / 360⌉

/-- The function `moon_offset`: the signed ecliptic-longitude offset of the
Moon from a target longitude.  `Astronomy_MoonPhase` (geocentric ecliptic
longitudes from the ephemeris series) is the external collaborator `mp`. -/
def moon_offset (mp : astro_time α → astro_angle_result α) (targetLon : α)
    (time : astro_time α) : astro_func_result α :=
  if (mp time).status = astro_status.success then
    ⟨LongitudeOffset ((mp time).angle - targetLon), astro_status.success⟩
  else
    FuncError (mp time).status

/-- The forward time-to-target estimate `est_dt` computed by
`Astronomy_SearchMoonPhase` from the phase offset at the start time:
`ya` is forced non-positive (search forward), then scaled by the mean
synodic month over a full revolution. -/
def moon_phase_est_dt (mp : astro_time α → astro_angle_result α) (targetLon : α)
    (dateStart : astro_time α) : α :=
  let ya0 := (moon_offset mp targetLon dateStart).value
  let ya := if ya0 > 0 then ya0 - 360 else ya0;
  -(MEAN_SYNODIC_MONTH * ya) / 360

/-- The function `Astronomy_SearchMoonPhase` (uncertainty window 0.9 days). -/
def Astronomy_SearchMoonPhase (D sqrtf : α → α)
    (mp : astro_time α → astro_angle_result α) (targetLon : α)
    (dateStart : astro_time α) (limitDays : α) : astro_search_result α :=
  if (moon_offset mp targetLon dateStart).status = astro_status.success then
    let est_dt := moon_phase_est_dt mp targetLon dateStart
    let dt1 := est_dt - 9 / 10
    if dt1 > limitDays then SearchError astro_status.noMoonQuarter
    else
      let dt2 := if limitDays < est_dt + 9 / 10 then limitDays else est_dt + 9 / 10
      Astronomy_Search D sqrtf (moon_offset mp targetLon)
        (Astronomy_AddDays D dateStart dt1) (Astronomy_AddDays D dateStart dt2) 1
  else
    SearchError (moon_offset mp targetLon dateStart).status

/-- The function `Astronomy_SearchMoonQuarter`: determine the next quarter
index from the current phase angle, then search for it within 10 days.
`(1 + (int)floor(angle/90)) % 4` uses the C truncating `%`, i.e. `Int.tmod`. -/
def Astronomy_SearchMoonQuarter (D sqrtf : α → α)
    (mp : astro_time α → astro_angle_result α) (dateStart : astro_time α) :
    astro_moon_quarter α :=
  if (mp dateStart).status = astro_status.success then
    let quarter := Int.tmod (1 + ⌊(mp dateStart).angle / 90⌋) 4
    let srchres := Astronomy_SearchMoonPhase D sqrtf mp (90 * (quarter : α)) dateStart 10
    if srchres.status = astro_status.success then
      ⟨quarter, srchres.time, astro_status.success⟩
    else
      MoonQuarterError srchres.status
  else
    MoonQuarterError (mp dateStart).status

/-- The function `Astronomy_NextMoonQuarter`: skip 6 days past the previous
quarter, search, and verify the found quarter is the expected successor. -/
def Astronomy_NextMoonQuarter (D sqrtf : α → α)
    (mp : astro_time α → astro_angle_result α) (mq : astro_moon_quarter α) :
    astro_moon_quarter α :=
  let next_mq := Astronomy_SearchMoonQuarter D sqrtf mp (Astronomy_AddDays D mq.time 6)
  if next_mq.status = astro_status.success then
    if next_mq.quarter ≠ Int.tmod (1 + mq.quarter) 4 then
      MoonQuarterError astro_status.wrongMoonQuarter
    else
      next_mq
  else
    next_mq

end MoonPhase

section ClaimC9

variable {α : Type} [LinearOrderedField α] [FloorRing α]

/-- C9: `Astronomy_SearchMoonPhase` brackets the synodic-period estimate
with the fixed 0.9-day uncertainty window and fails eagerly — returning the
`NO_MOON_QUARTER` status without entering the core search engine — whenever
the lower edge of that window would already exceed the caller's `limitDays`;
and any success time it returns is at most `dateStart + limitDays`
(for well-formed inputs and a tame Delta-T collaborator, since the upper
bracket edge is clamped to `limitDays` and the core engine stays inside its
bracket). -/
theorem Astronomy_SearchMoonPhase_limit (D sqrtf : α → α)
    (mp : astro_time α → astro_angle_result α) (targetLon : α)
    (dateStart : astro_time α) (limitDays : α) :
    ((moon_offset mp targetLon dateStart).status = astro_status.success →
      moon_phase_est_dt mp targetLon dateStart - 9 / 10 > limitDays →
      Astronomy_SearchMoonPhase D sqrtf mp targetLon dateStart limitDays =
        SearchError astro_status.noMoonQuarter)
    ∧ (tameDeltaT D → timeWellFormed D dateStart →
      (Astronomy_SearchMoonPhase D sqrtf mp targetLon dateStart limitDays).status =
        astro_status.success →
      (Astronomy_SearchMoonPhase D sqrtf mp targetLon dateStart limitDays).time.ut ≤
        dateStart.ut + limitDays) := by
  constructor
  · intro hok hfar
    unfold Astronomy_SearchMoonPhase
    rw [if_pos hok]
    dsimp only
    rw [if_pos hfar]
  · intro HD hwf hs
    unfold Astronomy_SearchMoonPhase at hs ⊢
    by_cases hok : (moon_offset mp targetLon dateStart).status = astro_status.success
    · rw [if_pos hok] at hs ⊢
      dsimp only at hs ⊢
      by_cases hfar : moon_phase_est_dt mp targetLon dateStart - 9 / 10 > limitDays
      · rw [if_pos hfar] at hs
        simp [SearchError] at hs
      · rw [if_neg hfar] at hs ⊢
        push_neg at hfar
        set e := moon_phase_est_dt mp targetLon dateStart with he
        have hd12 : e - 9 / 10 ≤ (if limitDays < e + 9 / 10 then limitDays else e + 9 / 10) := by
          split
          · linarith
          · linarith
        have hd2 : (if limitDays < e + 9 / 10 then limitDays else e + 9 / 10) ≤ limitDays := by
          split
          · linarith
          · rename_i h
            push_neg at h
            linarith
        have hcont := Astronomy_Search_ok_time_in_window D sqrtf (moon_offset mp targetLon)
          (Astronomy_AddDays D dateStart (e - 9 / 10))
          (Astronomy_AddDays D dateStart (if limitDays < e + 9 / 10 then limitDays
            else e + 9 / 10)) 1 HD
          (timeWellFormed_addDays D dateStart _) (timeWellFormed_addDays D dateStart _)
          (by simp only [Astronomy_AddDays]; linarith) hs
        have h2 := hcont.2
        rw [Astronomy_AddDays_ut] at h2
        linarith
    · rw [if_neg hok] at hs
      exact absurd (by simpa [SearchError] using hs) hok

end ClaimC9


section ClaimC8

variable {α : Type} [LinearOrderedField α] [FloorRing α]

/-- C8: when the inner search of `Astronomy_NextMoonQuarter` (started 6 days
after `mq.time`) succeeds, the returned quarter index is exactly
`(mq.quarter + 1) mod 4`; if the found quarter differs from that expected
index, the call returns the dedicated internal-error status
`WRONG_MOON_QUARTER` — distinct from ordinary non-convergence and from a
normal search failure — instead of the wrong event. -/
theorem Astronomy_NextMoonQuarter_increments_mod4 (D sqrtf : α → α)
    (mp : astro_time α → astro_angle_result α) (mq : astro_moon_quarter α)
    (hq : 0 ≤ mq.quarter) :
    (((Astronomy_NextMoonQuarter D sqrtf mp mq).status = astro_status.success →
        (Astronomy_NextMoonQuarter D sqrtf mp mq).quarter = (mq.quarter + 1) % 4)
      ∧ ((Astronomy_SearchMoonQuarter D sqrtf mp (Astronomy_AddDays D mq.time 6)).status =
            astro_status.success →
          (Astronomy_SearchMoonQuarter D sqrtf mp (Astronomy_AddDays D mq.time 6)).quarter ≠
            (mq.quarter + 1) % 4 →
          Astronomy_NextMoonQuarter D sqrtf mp mq =
            MoonQuarterError astro_status.wrongMoonQuarter))
    ∧ astro_status.wrongMoonQuarter ≠ astro_status.noConverge
    ∧ astro_status.wrongMoonQuarter ≠ astro_status.searchFailure := by
  have htm : Int.tmod (1 + mq.quarter) 4 = (mq.quarter + 1) % 4 := by
    rw [Int.tmod_eq_emod (by omega) (by omega), add_comm]
  refine ⟨⟨?_, ?_⟩, by decide, by decide⟩
  · intro hs
    unfold Astronomy_NextMoonQuarter at hs ⊢
    dsimp only at hs ⊢
    by_cases h1 : (Astronomy_SearchMoonQuarter D sqrtf mp
        (Astronomy_AddDays D mq.time 6)).status = astro_status.success
    · rw [if_pos h1] at hs ⊢
      by_cases h2 : (Astronomy_SearchMoonQuarter D sqrtf mp
          (Astronomy_AddDays D mq.time 6)).quarter ≠ Int.tmod (1 + mq.quarter) 4
      · rw [if_pos h2] at hs
        simp [MoonQuarterError] at hs
      · rw [if_neg h2] at hs ⊢
        push_neg at h2
        rw [h2, htm]
    · rw [if_neg h1] at hs
      exact absurd hs h1
  · intro h1 h2
    unfold Astronomy_NextMoonQuarter
    dsimp only
    rw [if_pos h1, if_pos (by rw [htm]; exact h2)]

end ClaimC8

/-- A concrete moon-phase collaborator for the witnesses: the phase angle
is 45 degrees at the start time, 89 degrees through the bracketing window,
and exactly 90 degrees (the first-quarter target) past day 4. -/
def qMoonAngle : astro_time ℚ → astro_angle_result ℚ := fun t =>
  if t.ut ≤ 0 then ⟨45, astro_status.success⟩
  else if t.ut ≤ 4 then ⟨89, astro_status.success⟩
  else ⟨90, astro_status.success⟩

/-- A new-moon quarter record used as the witness input. -/
def qMQ0 : astro_moon_quarter ℚ := ⟨0, ⟨-6, -6⟩, astro_status.success⟩

/-- The drift-free collaborator is tame. -/
theorem qD0_tame : tameDeltaT qD0 := by
  intro u v huv
  refine ⟨le_refl _, ?_⟩
  show qD0 v - qD0 u ≤ SECONDS_PER_DAY * (v - u)
  have h1 : (0:ℚ) ≤ (SECONDS_PER_DAY : ℚ) * (v - u) :=
    mul_nonneg (by norm_num [SECONDS_PER_DAY]) (by linarith)
  simpa [qD0] using h1

set_option maxRecDepth 20000 in
unseal Nat.sqrt.iter Rat.add Rat.mul Rat.sub Rat.inv in
/-- C8 witness: the theorem applied to a concrete run in which the search
succeeds and the quarter index advances from 0 to 1; the concrete run is
also evaluated outright. -/
theorem Astronomy_NextMoonQuarter_increments_mod4_witness :
    ((0 : ℤ) ≤ qMQ0.quarter
      ∧ (Astronomy_NextMoonQuarter qD0 ratSqrt qMoonAngle qMQ0).status =
          astro_status.success
      ∧ (Astronomy_NextMoonQuarter qD0 ratSqrt qMoonAngle qMQ0).quarter = 1)
    ∧ ((Astronomy_NextMoonQuarter qD0 ratSqrt qMoonAngle qMQ0).status =
          astro_status.success →
        (Astronomy_NextMoonQuarter qD0 ratSqrt qMoonAngle qMQ0).quarter =
          (qMQ0.quarter + 1) % 4) := by
  refine ⟨⟨by decide, by decide, by decide⟩, ?_⟩
  exact (Astronomy_NextMoonQuarter_increments_mod4 qD0 ratSqrt qMoonAngle qMQ0
    (by decide)).1.1

set_option maxRecDepth 20000 in
unseal Nat.sqrt.iter Rat.add Rat.mul Rat.sub Rat.inv in
/-- C9 witness: both halves of the theorem at concrete inputs — the eager
`NO_MOON_QUARTER` failure when the day limit is 1 (the estimated bracket
starts about 2.79 days out), and the success-time bound for the day limit
10 on a run that succeeds. -/
theorem Astronomy_SearchMoonPhase_limit_witness :
    ((moon_offset qMoonAngle 90 ⟨0, 0⟩).status = astro_status.success
      ∧ moon_phase_est_dt qMoonAngle 90 ⟨0, 0⟩ - 9 / 10 > 1
      ∧ Astronomy_SearchMoonPhase qD0 ratSqrt qMoonAngle 90 ⟨0, 0⟩ 1 =
          SearchError astro_status.noMoonQuarter)
    ∧ ((Astronomy_SearchMoonPhase qD0 ratSqrt qMoonAngle 90 ⟨0, 0⟩ 10).status =
          astro_status.success
      ∧ (Astronomy_SearchMoonPhase qD0 ratSqrt qMoonAngle 90 ⟨0, 0⟩ 10).time.ut ≤
          (⟨0, 0⟩ : astro_time ℚ).ut + 10) := by
  have hok : (moon_offset qMoonAngle 90 (⟨0, 0⟩ : astro_time ℚ)).status =
      astro_status.success := by decide
  have hfar : moon_phase_est_dt qMoonAngle 90 (⟨0, 0⟩ : astro_time ℚ) - 9 / 10 > 1 := by
    decide
  have hs10 : (Astronomy_SearchMoonPhase qD0 ratSqrt qMoonAngle 90 ⟨0, 0⟩ 10).status =
      astro_status.success := by decide
  refine ⟨⟨hok, hfar,
    (Astronomy_SearchMoonPhase_limit qD0 ratSqrt qMoonAngle 90 ⟨0, 0⟩ 1).1 hok hfar⟩,
    hs10, ?_⟩
  exact (Astronomy_SearchMoonPhase_limit qD0 ratSqrt qMoonAngle 90 ⟨0, 0⟩ 10).2
    qD0_tame (by simp [timeWellFormed, TerrestrialTime, qD0]) hs10


section LunarApsis

variable {α : Type} [LinearOrderedField α]

/-- The `astro_apsis_kind_t` enumeration. -/
inductive apsis_kind where
  | pericenter
  | apocenter
  | invalid
  deriving DecidableEq, Repr

/-- The `astro_apsis_t` structure. -/
structure astro_apsis (α : Type) where
  time : astro_time α
  kind : apsis_kind
  dist_au : α
  dist_km : α
  status : astro_status
  deriving DecidableEq, Repr

/-- The helper `ApsisError` (NAN payloads modelled as 0, kind INVALID). -/
def ApsisError (s : astro_status) : astro_apsis α :=
  ⟨⟨0, 0⟩, apsis_kind.invalid, 0, 0, s⟩

/-- The function `distance_slope`: centered finite difference of the lunar
distance over `dt = 0.001` days, multiplied by the search direction.
`MoonDistance` (the `CalcMoon` ephemeris series) is the collaborator `md`;
the C function always returns success because `CalcMoon` cannot fail. -/
def distance_slope (D : α → α) (md : astro_time α → α) (direction : α)
    (time : astro_time α) : astro_func_result α :=
  ⟨direction * (md (Astronomy_AddDays D time (1 / 1000 / 2)) -
      md (Astronomy_AddDays D time (-(1 / 1000 / 2)))) / (1 / 1000),
    astro_status.success⟩

/-- The scan loop of `Astronomy_SearchLunarApsis`: step forward in 5-day
increments while `iter * increment < 2 * MEAN_SYNODIC_MONTH`, bracketing an
apsis at the first slope-sign change (product ≤ 0).  The loop runs the body
for `iter = 0, 1, …` and the condition first fails at `iter = 12`, so the
structural budget `fuel = 12 - iter` (12 at the top-level call) expires
exactly when the condition fails, and both exits return `INTERNAL_ERROR`
just as the C code does after the loop. -/
def apsisScan (D sqrtf : α → α) (md : astro_time α → α) :
    ℕ → ℕ → astro_time α → α → astro_apsis α
  | 0, _, _, _ => ApsisError astro_status.internalError
  | Nat.succ fuel, iter, t1, m1 =>
    if (iter : α) * 5 < 2 * MEAN_SYNODIC_MONTH then
      let t2 := Astronomy_AddDays D t1 5
      let m2 := distance_slope D md 1 t2
      if m2.status = astro_status.success then
        if m1 * m2.value ≤ 0 then
          if m1 < 0 ∨ m2.value > 0 then
            let search := Astronomy_Search D sqrtf (distance_slope D md 1) t1 t2 1
            if search.status = astro_status.success then
              ⟨search.time, apsis_kind.pericenter, md search.time,
                md search.time * KM_PER_AU, astro_status.success⟩
            else ApsisError search.status
          else if m1 > 0 ∨ m2.value < 0 then
            let search := Astronomy_Search D sqrtf (distance_slope D md (-1)) t1 t2 1
            if search.status = astro_status.success then
              ⟨search.time, apsis_kind.apocenter, md search.time,
                md search.time * KM_PER_AU, astro_status.success⟩
            else ApsisError search.status
          else ApsisError astro_status.internalError
        else
          apsisScan D sqrtf md fuel (iter + 1) t2 m2.value
      else ApsisError m2.status
    else ApsisError astro_status.internalError

/-- The function `Astronomy_SearchLunarApsis`. -/
def Astronomy_SearchLunarApsis (D sqrtf : α → α) (md : astro_time α → α)
    (startTime : astro_time α) : astro_apsis α :=
  if (distance_slope D md 1 startTime).status = astro_status.success then
    apsisScan D sqrtf md 12 0 startTime (distance_slope D md 1 startTime).value
  else ApsisError (distance_slope D md 1 startTime).status

/-- The opposite of an apsis kind (the `expected` computation in
`Astronomy_NextLunarApsis`). -/
def oppositeApsis : apsis_kind → apsis_kind
  | apsis_kind.pericenter => apsis_kind.apocenter
  | apsis_kind.apocenter => apsis_kind.pericenter
  | apsis_kind.invalid => apsis_kind.invalid

/-- The function `Astronomy_NextLunarApsis`: skip 11 days past the previous
apsis, search again, and verify the found kind is the opposite one. -/
def Astronomy_NextLunarApsis (D sqrtf : α → α) (md : astro_time α → α)
    (apsis : astro_apsis α) : astro_apsis α :=
  if apsis.status = astro_status.success then
    let next := Astronomy_SearchLunarApsis D sqrtf md (Astronomy_AddDays D apsis.time 11)
    if next.status = astro_status.success then
      match apsis.kind with
      | apsis_kind.apocenter =>
        if next.kind ≠ apsis_kind.pericenter then ApsisError astro_status.internalError
        else next
      | apsis_kind.pericenter =>
        if next.kind ≠ apsis_kind.apocenter then ApsisError astro_status.internalError
        else next
      | apsis_kind.invalid => ApsisError astro_status.invalidParameter
    else next
  else ApsisError astro_status.invalidParameter

/-- The loop condition of the apsis scan holds exactly for the first twelve
iteration indexes: `5·iter < 2 × 29.530588 = 59.061176` iff `iter < 12`. -/
theorem apsisScan_cond_iff (iter : ℕ) :
    ((iter : α) * 5 < 2 * MEAN_SYNODIC_MONTH) ↔ iter < 12 := by
  rw [MEAN_SYNODIC_MONTH]
  constructor
  · intro h
    by_contra hc
    push_neg at hc
    have h12 : ((12 : ℕ) : α) ≤ (iter : α) := Nat.cast_le.mpr hc
    push_cast at h12
    nlinarith
  · intro h
    have h11 : (iter : α) ≤ ((11 : ℕ) : α) := Nat.cast_le.mpr (by omega)
    push_cast at h11
    nlinarith

end LunarApsis


section ClaimC6

variable {α : Type} [LinearOrderedField α]

/-- The distance-slope sampler always reports success (the ephemeris series
cannot fail). -/
@[simp] theorem distance_slope_status (D : α → α) (md : astro_time α → α)
    (direction : α) (t : astro_time α) :
    (distance_slope D md direction t).status = astro_status.success := rfl

/-- The distance slope depends only on the universal coordinate of its
argument (both sample times are rebuilt from it). -/
theorem distance_slope_congr_ut (D : α → α) (md : astro_time α → α) (direction : α)
    (t t2 : astro_time α) (h : t.ut = t2.ut) :
    distance_slope D md direction t = distance_slope D md direction t2 := by
  simp [distance_slope, Astronomy_AddDays, h]

/-- Every successful apsis found by the scan lies between the current scan
position and the 60-day mark: the scan bracket at index `iter` is
`[t1, t1 + 5]` with `t1 ≤ start + 5·iter` and `iter ≤ 11`. -/
theorem apsisScan_success_bound (D sqrtf : α → α) (md : astro_time α → α)
    (HD : tameDeltaT D) (startTime : astro_time α) :
    ∀ (fuel iter : ℕ) (t1 : astro_time α) (m1 : α),
      timeWellFormed D t1 →
      startTime.ut ≤ t1.ut → t1.ut ≤ startTime.ut + 5 * (iter : α) →
      (apsisScan D sqrtf md fuel iter t1 m1).status = astro_status.success →
      startTime.ut ≤ (apsisScan D sqrtf md fuel iter t1 m1).time.ut ∧
        (apsisScan D sqrtf md fuel iter t1 m1).time.ut ≤ startTime.ut + 60 := by
  intro fuel
  induction fuel with
  | zero =>
    intro iter t1 m1 _ _ _ hs
    simp [apsisScan, ApsisError] at hs
  | succ fuel ih =>
    intro iter t1 m1 hwf hlo hhi hs
    rw [apsisScan] at hs ⊢
    by_cases hcond : (iter : α) * 5 < 2 * MEAN_SYNODIC_MONTH
    · rw [if_pos hcond] at hs ⊢
      have hiter : iter < 12 := (apsisScan_cond_iff iter).mp hcond
      have hiter11 : (iter : α) ≤ 11 := by
        have h : ((iter : ℕ) : α) ≤ ((11 : ℕ) : α) := Nat.cast_le.mpr (by omega)
        simpa using h
      dsimp only at hs ⊢
      rw [if_pos (distance_slope_status D md 1 _)] at hs ⊢
      by_cases hprod : m1 * (distance_slope D md 1 (Astronomy_AddDays D t1 5)).value ≤ 0
      · rw [if_pos hprod] at hs ⊢
        have hwin : ∀ dir : α,
            (Astronomy_Search D sqrtf (distance_slope D md dir) t1
                (Astronomy_AddDays D t1 5) 1).status = astro_status.success →
            startTime.ut ≤ (Astronomy_Search D sqrtf (distance_slope D md dir) t1
                (Astronomy_AddDays D t1 5) 1).time.ut ∧
              (Astronomy_Search D sqrtf (distance_slope D md dir) t1
                (Astronomy_AddDays D t1 5) 1).time.ut ≤ startTime.ut + 60 := by
          intro dir hsr
          have hc := Astronomy_Search_ok_time_in_window D sqrtf (distance_slope D md dir)
            t1 (Astronomy_AddDays D t1 5) 1 HD hwf (timeWellFormed_addDays D t1 5)
            (by rw [Astronomy_AddDays_ut]; linarith) hsr
          rw [Astronomy_AddDays_ut] at hc
          constructor
          · linarith [hc.1]
          · linarith [hc.2]
        by_cases hb1 : m1 < 0 ∨ (distance_slope D md 1 (Astronomy_AddDays D t1 5)).value > 0
        · rw [if_pos hb1] at hs ⊢
          by_cases hsr : (Astronomy_Search D sqrtf (distance_slope D md 1) t1
              (Astronomy_AddDays D t1 5) 1).status = astro_status.success
          · rw [if_pos hsr] at hs ⊢
            exact hwin 1 hsr
          · rw [if_neg hsr] at hs
            exact absurd (by simpa [ApsisError] using hs) hsr
        · rw [if_neg hb1] at hs ⊢
          by_cases hb2 : m1 > 0 ∨ (distance_slope D md 1 (Astronomy_AddDays D t1 5)).value < 0
          · rw [if_pos hb2] at hs ⊢
            by_cases hsr : (Astronomy_Search D sqrtf (distance_slope D md (-1)) t1
                (Astronomy_AddDays D t1 5) 1).status = astro_status.success
            · rw [if_pos hsr] at hs ⊢
              exact hwin (-1) hsr
            · rw [if_neg hsr] at hs
              exact absurd (by simpa [ApsisError] using hs) hsr
          · rw [if_neg hb2] at hs
            simp [ApsisError] at hs
      · rw [if_neg hprod] at hs ⊢
        have hrec := ih (iter + 1) (Astronomy_AddDays D t1 5)
          (distance_slope D md 1 (Astronomy_AddDays D t1 5)).value
          (timeWellFormed_addDays D t1 5)
          (by rw [Astronomy_AddDays_ut]; linarith)
          (by rw [Astronomy_AddDays_ut]; simp only [Nat.cast_add, Nat.cast_one]; linarith)
          hs
        exact hrec
    · rw [if_neg hcond] at hs
      simp [ApsisError] at hs

/-- If no slope sign change occurs at any of the twelve scan steps, the
scan falls off the end and reports `INTERNAL_ERROR`. -/
theorem apsisScan_no_crossing (D sqrtf : α → α) (md : astro_time α → α)
    (startTime : astro_time α)
    (hall : ∀ k : ℕ, k < 12 →
      0 < (distance_slope D md 1 (Astronomy_AddDays D startTime (5 * (k : α)))).value *
        (distance_slope D md 1 (Astronomy_AddDays D startTime (5 * ((k : α) + 1)))).value) :
    ∀ (fuel iter : ℕ) (t1 : astro_time α) (m1 : α),
      t1.ut = startTime.ut + 5 * (iter : α) →
      m1 = (distance_slope D md 1 (Astronomy_AddDays D startTime (5 * (iter : α)))).value →
      apsisScan D sqrtf md fuel iter t1 m1 = ApsisError astro_status.internalError := by
  intro fuel
  induction fuel with
  | zero =>
    intro iter t1 m1 _ _
    rw [apsisScan]
  | succ fuel ih =>
    intro iter t1 m1 hut hm1
    rw [apsisScan]
    by_cases hcond : (iter : α) * 5 < 2 * MEAN_SYNODIC_MONTH
    · rw [if_pos hcond]
      have hiter : iter < 12 := (apsisScan_cond_iff iter).mp hcond
      dsimp only
      rw [if_pos (distance_slope_status D md 1 _)]
      have hm2 : distance_slope D md 1 (Astronomy_AddDays D t1 5) =
          distance_slope D md 1 (Astronomy_AddDays D startTime (5 * ((iter : α) + 1))) := by
        apply distance_slope_congr_ut
        rw [Astronomy_AddDays_ut, Astronomy_AddDays_ut, hut]
        ring
      have hpos := hall iter hiter
      rw [← hm1, ← hm2] at hpos
      rw [if_neg (not_le.mpr hpos)]
      exact ih (iter + 1) (Astronomy_AddDays D t1 5) _
        (by rw [Astronomy_AddDays_ut, hut]; simp only [Nat.cast_add, Nat.cast_one]; ring)
        (by rw [hm2]; simp only [Nat.cast_add, Nat.cast_one])
    · rw [if_neg hcond]

/-- C6 (amended): `Astronomy_SearchLunarApsis` scans forward in fixed 5-day
increments while `iter·5 < 2·MEAN_SYNODIC_MONTH` (so at most 12 steps,
reaching 60 days), brackets an apsis as soon as the product of consecutive
distance-slope samples is ≤ 0, and on success returns an apsis event whose
time lies in `[startTime, startTime + 60 days]` — two synodic months
rounded up to the end of the bracketing increment, slightly more than the
claimed ≈59 days (see `Astronomy_SearchLunarApsis_beyond_two_months_cex`);
if no slope sign change is found within the scan it returns the
`INTERNAL_ERROR` status. -/
theorem Astronomy_SearchLunarApsis_window_bound (D sqrtf : α → α)
    (md : astro_time α → α) (startTime : astro_time α)
    (HD : tameDeltaT D) (hwf : timeWellFormed D startTime) :
    ((Astronomy_SearchLunarApsis D sqrtf md startTime).status = astro_status.success →
      startTime.ut ≤ (Astronomy_SearchLunarApsis D sqrtf md startTime).time.ut ∧
        (Astronomy_SearchLunarApsis D sqrtf md startTime).time.ut ≤ startTime.ut + 60)
    ∧ ((∀ k : ℕ, k < 12 →
        0 < (distance_slope D md 1 (Astronomy_AddDays D startTime (5 * (k : α)))).value *
          (distance_slope D md 1 (Astronomy_AddDays D startTime (5 * ((k : α) + 1)))).value) →
      Astronomy_SearchLunarApsis D sqrtf md startTime =
        ApsisError astro_status.internalError) := by
  constructor
  · intro hs
    unfold Astronomy_SearchLunarApsis at hs ⊢
    rw [if_pos (distance_slope_status D md 1 _)] at hs ⊢
    exact apsisScan_success_bound D sqrtf md HD startTime 12 0 startTime _ hwf
      (le_refl _) (by push_cast; linarith) hs
  · intro hall
    unfold Astronomy_SearchLunarApsis
    rw [if_pos (distance_slope_status D md 1 _)]
    refine apsisScan_no_crossing D sqrtf md startTime hall 12 0 startTime _
      (by push_cast; ring) ?_
    have : Astronomy_AddDays D startTime (5 * ((0 : ℕ) : α)) =
        Astronomy_AddDays D startTime 0 := by norm_num
    rw [this]
    exact (distance_slope_congr_ut D md 1 startTime (Astronomy_AddDays D startTime 0)
      (by rw [Astronomy_AddDays_ut]; ring)) ▸ rfl

end ClaimC6


/-- A concrete lunar-distance collaborator for the apsis witnesses: the
distance grows linearly until day 58 and is constant afterwards, so the
first slope sign change sits in the final scan bracket `[55, 60]`. -/
def qTentDist : astro_time ℚ → ℚ := fun t => if t.ut < 58 then t.ut else 58

set_option maxRecDepth 40000 in
unseal Nat.sqrt.iter Rat.add Rat.mul Rat.sub Rat.inv in
/-- C6 counterexample: with a distance collaborator whose slope first
changes sign in the last scan increment, `Astronomy_SearchLunarApsis`
succeeds with an event 60 days after the start time — more than two synodic
months (2 × 29.530588 ≈ 59.06 days) later, refuting the claimed bound. -/
theorem Astronomy_SearchLunarApsis_beyond_two_months_cex :
    (Astronomy_SearchLunarApsis qD0 ratSqrt qTentDist ⟨0, 0⟩).status = astro_status.success
    ∧ 2 * MEAN_SYNODIC_MONTH <
        (Astronomy_SearchLunarApsis qD0 ratSqrt qTentDist ⟨0, 0⟩).time.ut
          - (⟨0, 0⟩ : astro_time ℚ).ut := by
  constructor
  · decide
  · decide

set_option maxRecDepth 40000 in
unseal Nat.sqrt.iter Rat.add Rat.mul Rat.sub Rat.inv in
/-- C6 witness: the amended bound applied to the concrete run (which
succeeds at exactly 60 days, inside the amended `[start, start + 60]`
window). -/
theorem Astronomy_SearchLunarApsis_window_bound_witness :
    (Astronomy_SearchLunarApsis qD0 ratSqrt qTentDist ⟨0, 0⟩).status = astro_status.success
    ∧ ((⟨0, 0⟩ : astro_time ℚ).ut ≤
          (Astronomy_SearchLunarApsis qD0 ratSqrt qTentDist ⟨0, 0⟩).time.ut
        ∧ (Astronomy_SearchLunarApsis qD0 ratSqrt qTentDist ⟨0, 0⟩).time.ut ≤
          (⟨0, 0⟩ : astro_time ℚ).ut + 60) := by
  have hs : (Astronomy_SearchLunarApsis qD0 ratSqrt qTentDist ⟨0, 0⟩).status =
      astro_status.success := by decide
  exact ⟨hs, (Astronomy_SearchLunarApsis_window_bound qD0 ratSqrt qTentDist ⟨0, 0⟩
    qD0_tame (by simp [timeWellFormed, TerrestrialTime, qD0])).1 hs⟩

section ClaimC7

variable {α : Type} [LinearOrderedField α]

/-- C7: for a valid input apsis, when the inner search of
`Astronomy_NextLunarApsis` succeeds, the returned apsis kind is the
opposite of the input kind (pericenter alternates with apocenter), so
repeated successful calls never return the same kind twice in a row; and if
the inner search finds the same kind as the input, the call returns the
`INTERNAL_ERROR` status instead of the event. -/
theorem Astronomy_NextLunarApsis_alternates (D sqrtf : α → α)
    (md : astro_time α → α) (apsis : astro_apsis α)
    (hst : apsis.status = astro_status.success)
    (hk : apsis.kind = apsis_kind.pericenter ∨ apsis.kind = apsis_kind.apocenter) :
    ((Astronomy_NextLunarApsis D sqrtf md apsis).status = astro_status.success →
      (Astronomy_NextLunarApsis D sqrtf md apsis).kind = oppositeApsis apsis.kind ∧
        (Astronomy_NextLunarApsis D sqrtf md apsis).kind ≠ apsis.kind)
    ∧ ((Astronomy_SearchLunarApsis D sqrtf md (Astronomy_AddDays D apsis.time 11)).status =
          astro_status.success →
        (Astronomy_SearchLunarApsis D sqrtf md (Astronomy_AddDays D apsis.time 11)).kind =
          apsis.kind →
        Astronomy_NextLunarApsis D sqrtf md apsis =
          ApsisError astro_status.internalError) := by
  constructor
  · intro hs
    unfold Astronomy_NextLunarApsis at hs ⊢
    rw [if_pos hst] at hs ⊢
    dsimp only at hs ⊢
    by_cases h1 : (Astronomy_SearchLunarApsis D sqrtf md
        (Astronomy_AddDays D apsis.time 11)).status = astro_status.success
    · rw [if_pos h1] at hs ⊢
      rcases hk with hk | hk <;> rw [hk] at hs ⊢
      · by_cases h2 : (Astronomy_SearchLunarApsis D sqrtf md
            (Astronomy_AddDays D apsis.time 11)).kind ≠ apsis_kind.apocenter
        · rw [if_pos h2] at hs
          simp [ApsisError] at hs
        · rw [if_neg h2] at hs ⊢
          push_neg at h2
          rw [h2, oppositeApsis]
          exact ⟨rfl, by simp⟩
      · by_cases h2 : (Astronomy_SearchLunarApsis D sqrtf md
            (Astronomy_AddDays D apsis.time 11)).kind ≠ apsis_kind.pericenter
        · rw [if_pos h2] at hs
          simp [ApsisError] at hs
        · rw [if_neg h2] at hs ⊢
          push_neg at h2
          rw [h2, oppositeApsis]
          exact ⟨rfl, by simp⟩
    · rw [if_neg h1] at hs
      exact absurd hs h1
  · intro h1 h2
    unfold Astronomy_NextLunarApsis
    rw [if_pos hst]
    dsimp only
    rw [if_pos h1]
    rcases hk with hk | hk <;> rw [hk] at h2 ⊢ <;> dsimp only
    · rw [if_pos (by rw [h2]; decide)]
    · rw [if_pos (by rw [h2]; decide)]

end ClaimC7

/-- A pericenter apsis record used as the C7 witness input; the search
started 11 days later begins at time 0 on the tent-shaped distance. -/
def qApsis0 : astro_apsis ℚ :=
  ⟨⟨-11, -11⟩, apsis_kind.pericenter, 0, 0, astro_status.success⟩

set_option maxRecDepth 40000 in
unseal Nat.sqrt.iter Rat.add Rat.mul Rat.sub Rat.inv in
/-- C7 witness: the theorem applied to a concrete run in which the inner
search succeeds with the opposite kind (apocenter after pericenter); the
concrete run is also evaluated outright. -/
theorem Astronomy_NextLunarApsis_alternates_witness :
    (qApsis0.status = astro_status.success
      ∧ (qApsis0.kind = apsis_kind.pericenter ∨ qApsis0.kind = apsis_kind.apocenter)
      ∧ (Astronomy_NextLunarApsis qD0 ratSqrt qTentDist qApsis0).status =
          astro_status.success
      ∧ (Astronomy_NextLunarApsis qD0 ratSqrt qTentDist qApsis0).kind =
          apsis_kind.apocenter)
    ∧ ((Astronomy_NextLunarApsis qD0 ratSqrt qTentDist qApsis0).status =
          astro_status.success →
        (Astronomy_NextLunarApsis qD0 ratSqrt qTentDist qApsis0).kind =
          oppositeApsis qApsis0.kind ∧
          (Astronomy_NextLunarApsis qD0 ratSqrt qTentDist qApsis0).kind ≠ qApsis0.kind) := by
  refine ⟨⟨by decide, Or.inl (by decide), by decide, by decide⟩, ?_⟩
  exact (Astronomy_NextLunarApsis_alternates qD0 ratSqrt qTentDist qApsis0
    (by decide) (Or.inl (by decide))).1


/-- A function contract failing at the left endpoint of `[0, 1]`. -/
def qErrLeft : astro_time ℚ → astro_func_result ℚ := fun t =>
  if t.ut < 1 / 2 then ⟨0, astro_status.badTime⟩ else ⟨7, astro_status.success⟩

/-- A function contract failing at the right endpoint of `[0, 1]`. -/
def qErrRight : astro_time ℚ → astro_func_result ℚ := fun t =>
  if t.ut < 1 / 2 then ⟨3, astro_status.success⟩ else ⟨0, astro_status.badTime⟩

unseal Nat.sqrt.iter Rat.add Rat.mul Rat.sub Rat.inv in
/-- C10 witness: all four conjuncts of the narrow-window theorem applied at
concrete inputs — upstream-error propagation from either endpoint, and the
unconditional midpoint acceptance (with its exact-midpoint form under the
drift-free Delta-T). -/
theorem Astronomy_Search_narrow_window_midpoint_witness :
    ((qErrLeft (⟨0, 0⟩ : astro_time ℚ)).status ≠ astro_status.success
      ∧ Astronomy_Search qD0 ratSqrt qErrLeft ⟨0, 0⟩ ⟨1, 1⟩ 86400 =
          SearchError (qErrLeft (⟨0, 0⟩ : astro_time ℚ)).status)
    ∧ ((qErrRight (⟨0, 0⟩ : astro_time ℚ)).status = astro_status.success
      ∧ (qErrRight (⟨1, 1⟩ : astro_time ℚ)).status ≠ astro_status.success
      ∧ Astronomy_Search qD0 ratSqrt qErrRight ⟨0, 0⟩ ⟨1, 1⟩ 86400 =
          SearchError (qErrRight (⟨1, 1⟩ : astro_time ℚ)).status)
    ∧ (|((⟨1, 1⟩ : astro_time ℚ).tt - (⟨0, 0⟩ : astro_time ℚ).tt) / 2|
          < |(86400 : ℚ) / SECONDS_PER_DAY|
      ∧ Astronomy_Search qD0 ratSqrt qConst5 ⟨0, 0⟩ ⟨1, 1⟩ 86400 =
          ⟨Astronomy_AddDays qD0 ⟨0, 0⟩
            (((⟨1, 1⟩ : astro_time ℚ).tt - (⟨0, 0⟩ : astro_time ℚ).tt) / 2),
            astro_status.success⟩)
    ∧ (Astronomy_Search qD0 ratSqrt qConst5 ⟨0, 0⟩ ⟨1, 1⟩ 86400).time.ut =
        ((⟨0, 0⟩ : astro_time ℚ).ut + (⟨1, 1⟩ : astro_time ℚ).ut) / 2 := by
  have h := Astronomy_Search_narrow_window_midpoint qD0 ratSqrt qErrLeft
    (⟨0, 0⟩ : astro_time ℚ) ⟨1, 1⟩ 86400
  have h2 := Astronomy_Search_narrow_window_midpoint qD0 ratSqrt qErrRight
    (⟨0, 0⟩ : astro_time ℚ) ⟨1, 1⟩ 86400
  have h3 := Astronomy_Search_narrow_window_midpoint qD0 ratSqrt qConst5
    (⟨0, 0⟩ : astro_time ℚ) ⟨1, 1⟩ 86400
  refine ⟨⟨by decide, h.1 (by decide)⟩,
    ⟨by decide, by decide, h2.2.1 (by decide) (by decide)⟩,
    ⟨by decide, h3.2.2.1 (by decide) (by decide) (by decide)⟩, ?_⟩
  exact h3.2.2.2 (by decide) (by decide) (by decide) (fun u v => rfl)
    (by simp [timeWellFormed, TerrestrialTime, qD0])
    (by simp [timeWellFormed, TerrestrialTime, qD0])

section HourAngle

variable {α : Type} [LinearOrderedField α] [FloorRing α]

/-- The `astro_equatorial_t` structure. -/
structure astro_equatorial (α : Type) where
  ra : α
  dec : α
  dist : α
  status : astro_status
  deriving DecidableEq, Repr

/-- The `astro_horizon_t` structure. -/
structure astro_horizon (α : Type) where
  azimuth : α
  altitude : α
  ra : α
  dec : α
  deriving DecidableEq, Repr

/-- The `astro_hour_angle_t` structure. -/
structure astro_hour_angle (α : Type) where
  time : astro_time α
  hor : astro_horizon α
  status : astro_status
  deriving DecidableEq, Repr

/-- The helper `HourAngleError` (NAN payloads modelled as 0). -/
def HourAngleError (s : astro_status) : astro_hour_angle α :=
  ⟨⟨0, 0⟩, ⟨0, 0, 0, 0⟩, s⟩

/-- The constant `SOLAR_DAYS_PER_SIDEREAL_DAY = 0.9972695717592592`. -/
def SOLAR_DAYS_PER_SIDEREAL_DAY : α := 9972695717592592 / 10000000000000000

/-- The C `fmod` function (truncated-division remainder: the result has the
sign of the dividend and magnitude below the divisor). -/
def cFmod (x y : α) : α :=
  if 0 ≤ x / y then x - y * ⌊x / y⌋ else x - y * ⌈x / y⌉

/-- The `for(;;)` loop of `Astronomy_SearchHourAngle`.  The C loop carries
no iteration cap, so it is modelled with an explicit budget and a `none`
result standing for non-termination within that budget; `first` mirrors the
C `iter == 1` test.  Sidereal time (`gast`), equatorial coordinates of date
(`eqd`, with the body and observer baked in), and the horizon conversion
(`hor`) are the external collaborators; `lon` is `observer.longitude`. -/
def shaLoop (D : α → α) (gast : astro_time α → α)
    (eqd : astro_time α → astro_equatorial α)
    (hor : astro_time α → α → α → astro_horizon α) (lon hourAngle : α) :
    ℕ → Bool → astro_time α → Option (astro_hour_angle α)
  | 0, _, _ => none
  | Nat.succ n, first, time =>
    if (eqd time).status = astro_status.success then
      let delta0 := cFmod ((hourAngle + (eqd time).ra - lon / 15) - gast time) 24
      let delta :=
        if first then (if delta0 < 0 then delta0 + 24 else delta0)
        else
          (if delta0 < -12 then delta0 + 24
           else if delta0 > 12 then delta0 - 24 else delta0)
      if |delta| * 3600 < 1 / 10 then
        some ⟨time, hor time (eqd time).ra (eqd time).dec, astro_status.success⟩
      else
        shaLoop D gast eqd hor lon hourAngle n false
          (Astronomy_AddDays D time (delta / 24 * SOLAR_DAYS_PER_SIDEREAL_DAY))
    else some (HourAngleError (eqd time).status)

/-- Termination of the hour-angle search from a given start time: some
budget suffices for the loop to return. -/
def shaTerminates (D : α → α) (gast : astro_time α → α)
    (eqd : astro_time α → astro_equatorial α)
    (hor : astro_time α → α → α → astro_horizon α) (lon hourAngle : α)
    (dateStart : astro_time α) : Prop :=
  ∃ n, (shaLoop D gast eqd hor lon hourAngle n true dateStart).isSome

end HourAngle

/-- Constant collaborators under which the hour-angle loop spins forever:
sidereal time and right ascension identically zero, an always-successful
equatorial result. -/
def qGastZ : astro_time ℚ → ℚ := fun _ => 0

/-- The constant equatorial collaborator. -/
def qEqdC : astro_time ℚ → astro_equatorial ℚ := fun _ => ⟨0, 0, 1, astro_status.success⟩

/-- The constant horizon collaborator. -/
def qHorC : astro_time ℚ → ℚ → ℚ → astro_horizon ℚ := fun _ _ _ => ⟨0, 0, 0, 0⟩

/-- Under the constant collaborators with `hourAngle = 12` the sidereal
error is 12 hours at every iteration, so the loop never returns. -/
theorem shaLoop_stuck : ∀ (n : ℕ) (first : Bool) (t : astro_time ℚ),
    shaLoop qD0 qGastZ qEqdC qHorC 0 12 n first t = none := by
  intro n
  induction n with
  | zero => intro first t; rfl
  | succ n ih =>
    intro first t
    rw [shaLoop]
    rw [if_pos (show (qEqdC t).status = astro_status.success from rfl)]
    have hd0 : cFmod ((12 + (qEqdC t).ra - 0 / 15) - qGastZ t) 24 = 12 := by
      show cFmod ((12 + 0 - 0 / 15) - 0) 24 = 12
      rw [show ((12 : ℚ) + 0 - 0 / 15) - 0 = 12 by norm_num]
      rw [cFmod, if_pos (by norm_num)]
      rw [show ((12 : ℚ) / 24) = 1 / 2 by norm_num]
      rw [show ⌊(1 / 2 : ℚ)⌋ = 0 by
        rw [Int.floor_eq_zero_iff]
        constructor <;> norm_num]
      norm_num
    dsimp only
    rw [hd0]
    rcases first with _ | _
    · rw [if_neg (by norm_num), if_neg (by norm_num), if_neg (by norm_num),
        if_neg (by norm_num)]
      exact ih false _
    · rw [if_pos rfl, if_neg (by norm_num), if_neg (by norm_num)]
      exact ih false _

/-- C5 counterexample: the hour-angle search loop carries no iteration cap,
and with legitimately pure (constant) coordinate collaborators it never
terminates: the claim that every public search terminates because all
iteration sits under a hard cap is false of `Astronomy_SearchHourAngle`. -/
theorem Astronomy_SearchHourAngle_nonterminating_cex :
    ¬ shaTerminates qD0 qGastZ qEqdC qHorC 0 12 ⟨0, 0⟩ := by
  rintro ⟨n, hn⟩
  rw [shaLoop_stuck n true ⟨0, 0⟩] at hn
  exact absurd hn (by simp)


section RiseSet

variable {α : Type} [LinearOrderedField α]

/-- The `for(;;)` retry loop of `Astronomy_SearchRiseSet`.  One iteration:
if the current pair of hour-angle events brackets the sought crossing
(`alt_before ≤ 0 < alt_after`), run the core search and return any outcome
other than `SEARCH_FAILURE`; otherwise (or on `SEARCH_FAILURE`) advance to
the next before/after hour-angle events, give up with `SEARCH_FAILURE` once
the before-event passes `dateStart + limitDays`, and re-sample the peak
altitude at both events.  The peak-altitude contract `palt` and the
hour-angle search `sha` (taking the hour-angle value and a start time) are
passed as collaborators; the C loop has no iteration cap, so it is modelled
with a budget and `none` for non-termination within that budget. -/
def riseSetLoop (D sqrtf : α → α) (palt : astro_time α → astro_func_result α)
    (sha : α → astro_time α → astro_hour_angle α) (ha_before ha_after : α)
    (time_start : astro_time α) (limitDays : α) :
    ℕ → astro_time α → α → astro_hour_angle α → α → Option (astro_search_result α)
  | 0, _, _, _, _ => none
  | Nat.succ n, time_before, alt_before, evt_after, alt_after =>
    let proceed : Option (astro_search_result α) :=
      let evt_before := sha ha_before evt_after.time
      if evt_before.status = astro_status.success then
        let evt_after2 := sha ha_after evt_before.time
        if evt_after2.status = astro_status.success then
          if evt_before.time.ut ≥ time_start.ut + limitDays then
            some (SearchError astro_status.searchFailure)
          else
            if (palt evt_before.time).status = astro_status.success then
              if (palt evt_after2.time).status = astro_status.success then
                riseSetLoop D sqrtf palt sha ha_before ha_after time_start limitDays
                  n evt_before.time (palt evt_before.time).value evt_after2
                  (palt evt_after2.time).value
              else some (SearchError (palt evt_after2.time).status)
            else some (SearchError (palt evt_before.time).status)
        else some (SearchError evt_after2.status)
      else some (SearchError evt_before.status)
    if alt_before ≤ 0 ∧ alt_after > 0 then
      if (Astronomy_Search D sqrtf palt time_before evt_after.time 1).status ≠
          astro_status.searchFailure then
        some (Astronomy_Search D sqrtf palt time_before evt_after.time 1)
      else proceed
    else proceed

/-- C5 (amended): the rise/set retry loop terminates — returns within some
finite budget — whenever every successful hour-angle search advances its
start time by at least a fixed positive step `δ` and finitely many such
steps (`k`) cover the remaining day limit: the `SEARCH_FAILURE` day-limit
check (or an earlier success or error) then ends the loop.  The hour-angle
search loop itself carries no iteration cap and need not terminate (see
`Astronomy_SearchHourAngle_nonterminating_cex`). -/
theorem Astronomy_SearchRiseSet_loop_terminates (D sqrtf : α → α)
    (palt : astro_time α → astro_func_result α)
    (sha : α → astro_time α → astro_hour_angle α) (ha_before ha_after : α)
    (time_start : astro_time α) (limitDays : α) (δ : α) (hδ : 0 < δ)
    (hadv : ∀ h t, (sha h t).status = astro_status.success →
      t.ut + δ ≤ (sha h t).time.ut) :
    ∀ (k : ℕ) (time_before : astro_time α) (alt_before : α)
      (evt_after : astro_hour_angle α) (alt_after : α),
      time_start.ut + limitDays ≤ evt_after.time.ut + (k : α) * δ →
      ∃ r, riseSetLoop D sqrtf palt sha ha_before ha_after time_start limitDays
        (k + 1) time_before alt_before evt_after alt_after = some r := by
  intro k
  induction k with
  | zero =>
    intro time_before alt_before evt_after alt_after hk
    push_cast at hk
    rw [riseSetLoop]
    have hpro : ∀ pro : Option (astro_search_result α),
        (pro = (let evt_before := sha ha_before evt_after.time
          if evt_before.status = astro_status.success then
            let evt_after2 := sha ha_after evt_before.time
            if evt_after2.status = astro_status.success then
              if evt_before.time.ut ≥ time_start.ut + limitDays then
                some (SearchError astro_status.searchFailure)
              else
                if (palt evt_before.time).status = astro_status.success then
                  if (palt evt_after2.time).status = astro_status.success then
                    riseSetLoop D sqrtf palt sha ha_before ha_after time_start limitDays
                      0 evt_before.time (palt evt_before.time).value evt_after2
                      (palt evt_after2.time).value
                  else some (SearchError (palt evt_after2.time).status)
                else some (SearchError (palt evt_before.time).status)
            else some (SearchError evt_after2.status)
          else some (SearchError evt_before.status))) → ∃ r, pro = some r := by
      intro pro hdef
      by_cases hb : (sha ha_before evt_after.time).status = astro_status.success
      · rw [hdef]
        dsimp only
        rw [if_pos hb]
        by_cases ha2 : (sha ha_after (sha ha_before evt_after.time).time).status =
            astro_status.success
        · rw [if_pos ha2]
          have hge : (sha ha_before evt_after.time).time.ut ≥
              time_start.ut + limitDays := by
            have := hadv ha_before evt_after.time hb
            linarith
          rw [if_pos hge]
          exact ⟨_, rfl⟩
        · rw [if_neg ha2]
          exact ⟨_, rfl⟩
      · rw [hdef]
        dsimp only
        rw [if_neg hb]
        exact ⟨_, rfl⟩
    dsimp only
    by_cases hc : alt_before ≤ 0 ∧ alt_after > 0
    · rw [if_pos hc]
      by_cases hr : (Astronomy_Search D sqrtf palt time_before evt_after.time 1).status ≠
          astro_status.searchFailure
      · rw [if_pos hr]
        exact ⟨_, rfl⟩
      · rw [if_neg hr]
        exact hpro _ rfl
    · rw [if_neg hc]
      exact hpro _ rfl
  | succ k ih =>
    intro time_before alt_before evt_after alt_after hk
    rw [riseSetLoop]
    have hpro : ∃ r, (let evt_before := sha ha_before evt_after.time
        if evt_before.status = astro_status.success then
          let evt_after2 := sha ha_after evt_before.time
          if evt_after2.status = astro_status.success then
            if evt_before.time.ut ≥ time_start.ut + limitDays then
              some (SearchError astro_status.searchFailure)
            else
              if (palt evt_before.time).status = astro_status.success then
                if (palt evt_after2.time).status = astro_status.success then
                  riseSetLoop D sqrtf palt sha ha_before ha_after time_start limitDays
                    (k + 1) evt_before.time (palt evt_before.time).value evt_after2
                    (palt evt_after2.time).value
                else some (SearchError (palt evt_after2.time).status)
              else some (SearchError (palt evt_before.time).status)
          else some (SearchError evt_after2.status)
        else some (SearchError evt_before.status)) = some r := by
      by_cases hb : (sha ha_before evt_after.time).status = astro_status.success
      · dsimp only
        rw [if_pos hb]
        by_cases ha2 : (sha ha_after (sha ha_before evt_after.time).time).status =
            astro_status.success
        · rw [if_pos ha2]
          by_cases hge : (sha ha_before evt_after.time).time.ut ≥
              time_start.ut + limitDays
          · rw [if_pos hge]
            exact ⟨_, rfl⟩
          · rw [if_neg hge]
            by_cases hp1 : (palt (sha ha_before evt_after.time).time).status =
                astro_status.success
            · rw [if_pos hp1]
              by_cases hp2 : (palt (sha ha_after (sha ha_before evt_after.time).time).time).status =
                  astro_status.success
              · rw [if_pos hp2]
                apply ih
                have hs1 := hadv ha_before evt_after.time hb
                have hs2 := hadv ha_after (sha ha_before evt_after.time).time ha2
                push_cast at hk ⊢
                nlinarith
              · rw [if_neg hp2]
                exact ⟨_, rfl⟩
            · rw [if_neg hp1]
              exact ⟨_, rfl⟩
        · rw [if_neg ha2]
          exact ⟨_, rfl⟩
      · dsimp only
        rw [if_neg hb]
        exact ⟨_, rfl⟩
    dsimp only
    by_cases hc : alt_before ≤ 0 ∧ alt_after > 0
    · rw [if_pos hc]
      by_cases hr : (Astronomy_Search D sqrtf palt time_before evt_after.time 1).status ≠
          astro_status.searchFailure
      · rw [if_pos hr]
        exact ⟨_, rfl⟩
      · rw [if_neg hr]
        exact hpro
    · rw [if_neg hc]
      exact hpro

end RiseSet

/-- An hour-angle collaborator that always succeeds one day later. -/
def qShaStep : ℚ → astro_time ℚ → astro_hour_angle ℚ := fun _ t =>
  ⟨Astronomy_AddDays qD0 t 1, ⟨0, 0, 0, 0⟩, astro_status.success⟩

/-- A peak-altitude contract for a body that never rises. -/
def qAltNeg : astro_time ℚ → astro_func_result ℚ := fun _ => ⟨-1, astro_status.success⟩

unseal Nat.sqrt.iter Rat.add Rat.mul Rat.sub Rat.inv in
/-- C5 witness: the rise/set termination theorem applied to a circumpolar
configuration (altitude contract always negative) with hour-angle events
advancing one day per call and a two-day limit; the loop indeed returns
`SEARCH_FAILURE` within the predicted budget, which is also evaluated
outright. -/
theorem Astronomy_SearchRiseSet_loop_terminates_witness :
    ((0 : ℚ) < 1
      ∧ (∀ h t, (qShaStep h t).status = astro_status.success →
          t.ut + 1 ≤ (qShaStep h t).time.ut)
      ∧ (⟨0, 0⟩ : astro_time ℚ).ut + 2 ≤ (⟨0, 0⟩ : astro_time ℚ).ut + ((2 : ℕ) : ℚ) * 1
      ∧ riseSetLoop qD0 ratSqrt qAltNeg qShaStep 12 0 ⟨0, 0⟩ 2 3 ⟨0, 0⟩ (-1)
          ⟨⟨0, 0⟩, ⟨0, 0, 0, 0⟩, astro_status.success⟩ (-1) =
        some (SearchError astro_status.searchFailure))
    ∧ ∃ r, riseSetLoop qD0 ratSqrt qAltNeg qShaStep 12 0 ⟨0, 0⟩ 2 (2 + 1) ⟨0, 0⟩ (-1)
        ⟨⟨0, 0⟩, ⟨0, 0, 0, 0⟩, astro_status.success⟩ (-1) = some r := by
  have hadv : ∀ h t, (qShaStep h t).status = astro_status.success →
      t.ut + 1 ≤ (qShaStep h t).time.ut := by
    intro h t _
    rw [show (qShaStep h t).time = Astronomy_AddDays qD0 t 1 from rfl, Astronomy_AddDays_ut]
  refine ⟨⟨one_pos, hadv, by norm_num, by decide⟩, ?_⟩
  exact Astronomy_SearchRiseSet_loop_terminates qD0 ratSqrt qAltNeg qShaStep 12 0
    ⟨0, 0⟩ 2 1 one_pos hadv 2 ⟨0, 0⟩ (-1) ⟨⟨0, 0⟩, ⟨0, 0, 0, 0⟩, astro_status.success⟩
    (-1) (by norm_num)

end Astro
